import Mathlib

/-!
# Feature contribution engine of the Datadog operator

A shallow embedding of the feature modules `livecontainer`, `dogstatsd` and
`enabledefault` (package `internal/controller/datadogagent/feature`) and the
statements proved about them.

Conventions of the embedding:

* a Go pointer `*T` is an `Option T`, `nil` is `none`;
* a Go `error` result is an `Option Error`, `nil` is `none`;
* a Go map from container names to slices is a total function whose value at a
  key that was never written is the empty list (what indexing a Go map yields);
* a method with a pointer receiver that writes into the managers it is handed
  returns an `Outcome`: the receiver after the call, the managers after the
  call and the returned error;
* a run-time panic of the Go code (a nil dereference, an index out of range)
  is the result `none` of a function into `Option`;
* the features are written against the manager interfaces, as in the source:
  the managers are a parameter, a record of operations over a state `σ`;
* constants of packages that are not embedded here are given a value; the
  statements use them by name;
* what a method contributes is read off managers that record the calls made
  (`recordingContributions`, `recordingManagers`): the methods never look at
  what a manager answers, so the calls are the same for every manager.
-/

set_option linter.dupNamespace false

namespace DatadogOperator

/-! ## Go and Kubernetes values the features build -/

/-- Go type `commonv1.AgentContainerName`, a string. -/
abbrev AgentContainerName := String

/-- Errors. The source only ever sees values of the Go interface `error`; the
constructors are the kinds the spec names (section 7) and the aggregate built
by `errors.NewAggregate`. -/
inductive Error where
  | ConflictError (key : String)
  | DependencyError (msg : String)
  | Aggregate (errs : List Error)

/-- Kubernetes `corev1.ConfigMapKeySelector`. -/
structure ConfigMapKeySelector where
  Name : String := ""
  Key : String := ""
  deriving DecidableEq, Repr

/-- Kubernetes `corev1.SecretKeySelector`. -/
structure SecretKeySelector where
  Name : String := ""
  Key : String := ""
  deriving DecidableEq, Repr

/-- Kubernetes `corev1.EnvVarSource`. -/
structure EnvVarSource where
  ConfigMapKeyRef : Option ConfigMapKeySelector := none
  SecretKeyRef : Option SecretKeySelector := none
  deriving DecidableEq, Repr

/-- Kubernetes `corev1.EnvVar`. -/
structure EnvVar where
  Name : String := ""
  Value : String := ""
  ValueFrom : Option EnvVarSource := none
  deriving DecidableEq, Repr

/-- Kubernetes `corev1.HostPathType`. -/
inductive HostPathType where
  | HostPathUnset
  | HostPathDirectoryOrCreate
  | HostPathDirectory
  | HostPathFileOrCreate
  | HostPathFile
  | HostPathSocket
  deriving DecidableEq, Repr

/-- Kubernetes `corev1.HostPathVolumeSource`; the Go field `Type` is `Type_`. -/
structure HostPathVolumeSource where
  Path : String := ""
  Type_ : Option HostPathType := none
  deriving DecidableEq, Repr

/-- Kubernetes `corev1.VolumeSource`, the host-path member. -/
structure VolumeSource where
  HostPath : Option HostPathVolumeSource := none
  deriving DecidableEq, Repr

/-- Kubernetes `corev1.Volume`. -/
structure Volume where
  Name : String := ""
  VolumeSource : VolumeSource := {}
  deriving DecidableEq, Repr

/-- Kubernetes `corev1.VolumeMount`. -/
structure VolumeMount where
  Name : String := ""
  MountPath : String := ""
  ReadOnly : Bool := false
  deriving DecidableEq, Repr

/-- Kubernetes `corev1.Protocol`; `Unset` is the empty string. -/
inductive Protocol where
  | Unset
  | ProtocolTCP
  | ProtocolUDP
  | ProtocolSCTP
  deriving DecidableEq, Repr

/-- Kubernetes `corev1.ContainerPort`; the `int32` fields are integers (no
arithmetic is done on them). -/
structure ContainerPort where
  Name : String := ""
  HostPort : Int := 0
  ContainerPort : Int := 0
  Protocol : Protocol := Protocol.Unset
  deriving DecidableEq, Repr

/-! ## Constants and helpers declared in a package that is not embedded here -/

/-- Modelled from the spec: constant `commonv1.CoreAgentContainerName` (the
"core-agent" container), declared in a package that is not embedded here. -/
def CoreAgentContainerName : AgentContainerName := "agent"

/-- Modelled from the spec: constant `commonv1.ProcessAgentContainerName`,
declared in a package that is not embedded here. -/
def ProcessAgentContainerName : AgentContainerName := "process-agent"

/-- Modelled from the spec: constant
`commonv1.UnprivilegedSingleAgentContainerName`, declared in a
package that is not embedded here. -/
def UnprivilegedSingleAgentContainerName : AgentContainerName := "unprivileged-single-agent"

/-- Modelled from the spec: constant `commonv1.OtelAgent`, declared in a package
that is not embedded here. -/
def OtelAgent : AgentContainerName := "otel-agent"

/-- Modelled from the spec: constant `commonv1.SystemProbeContainerName`,
declared in a package that is not embedded here. -/
def SystemProbeContainerName : AgentContainerName := "system-probe"

/-- Modelled from the spec: constant `commonv1.AllContainers`, the key under
which a contribution made to every container is kept; declared in a package
that is not embedded here. -/
def AllContainers : AgentContainerName := "all"

/-- Modelled from the spec: constant `apicommon.DDProcessConfigRunInCoreAgent`
(the spec's `RUN_IN_CORE_AGENT`); the name is the one the feature test sets in
a component override. -/
def DDProcessConfigRunInCoreAgent : String := "DD_PROCESS_CONFIG_RUN_IN_CORE_AGENT_ENABLED"

/-- Modelled from the spec: constant `apicommon.DDContainerCollectionEnabled`,
declared in a package that is not embedded here. -/
def DDContainerCollectionEnabled : String := "DD_PROCESS_CONFIG_CONTAINER_COLLECTION_ENABLED"

/-- Modelled from the spec: constant `apicommon.CgroupsVolumeName`. -/
def CgroupsVolumeName : String := "cgroups"

/-- Modelled from the spec: constant `apicommon.CgroupsHostPath`. -/
def CgroupsHostPath : String := "/sys/fs/cgroup"

/-- Modelled from the spec: constant `apicommon.CgroupsMountPath`. -/
def CgroupsMountPath : String := "/host/sys/fs/cgroup"

/-- Modelled from the spec: constant `apicommon.ProcdirVolumeName`. -/
def ProcdirVolumeName : String := "procdir"

/-- Modelled from the spec: constant `apicommon.ProcdirHostPath`. -/
def ProcdirHostPath : String := "/proc"

/-- Modelled from the spec: constant `apicommon.ProcdirMountPath`. -/
def ProcdirMountPath : String := "/host/proc"

/-- Modelled from the spec: helper `apiutils.BoolValue` (package not
embedded here): the value of a boolean pointer, `false` for `nil`; the spec's
"absent/disabled". -/
def BoolValue : Option Bool → Bool
  | some b => b
  | none => false

/-- Modelled from the spec: helper `apiutils.NewBoolPointer` (package not
embedded here): a pointer to the given boolean. -/
def NewBoolPointer (b : Bool) : Option Bool := some b

/-- Modelled from the spec: helper `apiutils.BoolToString` (package not
embedded here): `"true"` or `"false"`, as in the spec's `RUN_IN_CORE_AGENT=false`. -/
def BoolToString (b : Bool) : String := if b then "true" else "false"

/-- Modelled from the spec: helper `volume.GetVolumes` (package not
embedded here): "host-path volume mounts": a host-path volume of the given name and
host path, and its mount at the given path with the given read-only flag; the
shape is the one the feature test expects. -/
def GetVolumes (volumeName hostPath mountPath : String) (readOnly : Bool) : Volume × VolumeMount :=
  ({ Name := volumeName, VolumeSource := { HostPath := some { Path := hostPath } } },
   { Name := volumeName, MountPath := mountPath, ReadOnly := readOnly })

/-! ## Required components -/

/-- Go struct `feature.RequiredComponent`: the tri-state flag and the ordered
container names. -/
structure RequiredComponent where
  IsRequired : Option Bool := none
  Containers : List AgentContainerName := []
  deriving DecidableEq, Repr

/-- Go struct `feature.RequiredComponents`. -/
structure RequiredComponents where
  ClusterAgent : RequiredComponent := {}
  Agent : RequiredComponent := {}
  ClusterChecksRunner : RequiredComponent := {}
  deriving DecidableEq, Repr

/-- Modelled from the spec: method `RequiredComponent.IsEnabled` (outside the
sources embedded here): "treats only explicit true as enabled; unset and explicit false
both mean disabled". -/
def RequiredComponent.IsEnabled (rc : RequiredComponent) : Bool :=
  match rc.IsRequired with
  | some b => b
  | none => false

/-- Go struct `feature.Options`, without the logger. -/
structure Options where
  ProcessChecksInCoreAgentEnabled : Bool := false
  OtelAgentEnabled : Bool := false
  deriving DecidableEq, Repr

/-! ## The desired state -/

/-- Go struct `v2alpha1.LiveContainerCollectionFeatureConfig`. -/
structure LiveContainerCollectionFeatureConfig where
  Enabled : Option Bool := none
  deriving DecidableEq, Repr

/-- Go struct `v2alpha1.DatadogFeatures`: the sections read by the embedded
features. -/
structure DatadogFeatures where
  LiveContainerCollection : Option LiveContainerCollectionFeatureConfig := none
  deriving DecidableEq, Repr

/-- Go struct `commonv1.SecretConfig`: a reference to a key of a secret. -/
structure SecretConfig where
  SecretName : String := ""
  KeyName : String := ""
  deriving DecidableEq, Repr

/-- Go struct `v2alpha1.DatadogCredentials`. -/
structure DatadogCredentials where
  APIKey : Option String := none
  APISecret : Option SecretConfig := none
  AppKey : Option String := none
  AppSecret : Option SecretConfig := none
  deriving DecidableEq, Repr

/-- Go struct `v2alpha1.GlobalConfig`: the fields read by the default feature. -/
structure GlobalConfig where
  DisableNonResourceRules : Option Bool := none
  Credentials : Option DatadogCredentials := none
  ClusterAgentToken : Option String := none
  ClusterAgentTokenSecret : Option SecretConfig := none
  deriving DecidableEq, Repr

/-- Go struct `v2alpha1.DatadogAgentSpec`. -/
structure DatadogAgentSpec where
  Features : DatadogFeatures := {}
  Global : Option GlobalConfig := none
  deriving DecidableEq, Repr

/-- Status of the cluster agent deployment: the token a previous pass
generated, empty when there is none. -/
structure DeploymentStatus where
  GeneratedToken : String := ""
  deriving DecidableEq, Repr

/-- Go struct `v2alpha1.DatadogAgentStatus`: the part read by the default
feature. -/
structure DatadogAgentStatus where
  ClusterAgent : Option DeploymentStatus := none
  deriving DecidableEq, Repr

/-- Go struct `v2alpha1.DatadogAgent`: object metadata, spec and status. -/
structure DatadogAgent where
  Namespace : String := ""
  Name : String := ""
  Spec : DatadogAgentSpec := {}
  Status : DatadogAgentStatus := {}
  deriving DecidableEq, Repr

/-! ## Pod-template managers -/

/-- Go type `merger.VolumeMountMergeFunction`: from the current and the new
mount, the mount to keep or an error. -/
abbrev VolumeMountMergeFunction := VolumeMount → VolumeMount → Except Error VolumeMount

/-- Modelled from the spec: `merger.OverrideCurrentVolumeMountMergeFunction`
(package not embedded here): the policy "last writer overrides". -/
def OverrideCurrentVolumeMountMergeFunction : VolumeMountMergeFunction :=
  fun _ newMount => Except.ok newMount

/-- Modelled from the spec: the interface `feature.PodTemplateManagers` is
declared in a package that is not embedded here. Its operations are the ones
the features call, `managers.EnvVar().AddEnvVarToContainer(...)` being the field
`AddEnvVarToContainer`; each takes the state of the managers and gives the
state after the call and the error the manager returned (the features drop
it). `SetHostPID` is the assignment `managers.PodTemplateSpec().Spec.HostPID = b`. -/
structure PodTemplateManagers (σ : Type) where
  AddEnvVar : EnvVar → σ → σ × Option Error
  AddEnvVarToContainer : AgentContainerName → EnvVar → σ → σ × Option Error
  AddVolumeMountToContainer : VolumeMount → AgentContainerName → σ → σ × Option Error
  AddVolumeMountToContainerWithMergeFunc :
    VolumeMount → AgentContainerName → VolumeMountMergeFunction → σ → σ × Option Error
  AddVolume : Volume → σ → σ × Option Error
  AddPortToContainer : AgentContainerName → ContainerPort → σ → σ × Option Error
  AddAnnotation : String → String → σ → σ × Option Error
  SetHostPID : Bool → σ → σ

/-- What a feature method leaves behind: the receiver, the managers and the
returned error. -/
structure Outcome (φ σ : Type) where
  receiver : φ
  managers : σ
  err : Option Error

/-! ## Field managers as the spec describes them -/

/-- Modelled from the spec: the state of the field managers (package `merger`
and the fake managers the feature tests read, both outside the sources
embedded here):
"per manager kind, a mapping from (component, container) to an ordered sequence
of contributed values; insertion order preserved per container". The fields
are the ones the feature tests read (`EnvVarMgr.EnvVarsByC`,
`VolumeMountMgr.VolumeMountsByC`, `VolumeMgr.Volumes`), the ports per
container, the annotations and the `HostPID` flag of the pod template. -/
structure FieldManagers where
  EnvVarsByC : AgentContainerName → List EnvVar
  VolumeMountsByC : AgentContainerName → List VolumeMount
  Volumes : List Volume
  PortsByC : AgentContainerName → List ContainerPort
  Annotations : List (String × String)
  HostPID : Bool

/-- Fresh managers: nothing contributed yet. -/
def FieldManagers.empty : FieldManagers :=
  { EnvVarsByC := fun _ => [], VolumeMountsByC := fun _ => [], Volumes := [],
    PortsByC := fun _ => [], Annotations := [], HostPID := false }

/-- Modelled from the spec: "a named merge function governs what happens when
two contributions target the same logical key": the new value is appended when
no value of the sequence has its key, and otherwise the first value with that
key is replaced by what the merge function makes of it and the new value, or
the merge function's error is returned. -/
def addWithMergeFunc {α : Type} (key : α → String) (mergeFunc : α → α → Except Error α)
    (newValue : α) : List α → Except Error (List α)
  | [] => Except.ok [newValue]
  | current :: rest =>
    if key current = key newValue then
      match mergeFunc current newValue with
      | Except.ok merged => Except.ok (merged :: rest)
      | Except.error e => Except.error e
    else
      match addWithMergeFunc key mergeFunc newValue rest with
      | Except.ok rest2 => Except.ok (current :: rest2)
      | Except.error e => Except.error e

/-- Modelled from the spec: the default merge policy "reject (return
ConflictError naming the colliding key) if two features contribute different
values under the same key for the same container". -/
def rejectIfDifferent {α : Type} [DecidableEq α] (key : α → String) (current newValue : α) :
    Except Error α :=
  if current = newValue then Except.ok current
  else Except.error (Error.ConflictError (key newValue))

/-- The table of the merge functions the field managers apply when a
contribution comes without one ("which field kinds default to which policy",
a table kept outside the sources embedded here): a parameter of the field
managers. -/
structure MergePolicies where
  envVar : EnvVar → EnvVar → Except Error EnvVar
  volumeMount : VolumeMountMergeFunction
  volume : Volume → Volume → Except Error Volume

/-- Modelled from the spec: the default table, "reject if different" for
environment variables, volume mounts and volumes. -/
def defaultMergePolicies : MergePolicies :=
  { envVar := rejectIfDifferent EnvVar.Name
    volumeMount := rejectIfDifferent VolumeMount.Name
    volume := rejectIfDifferent Volume.Name }

/-- Write of one key of a Go map. -/
def setAt {β : Type} (m : AgentContainerName → β) (c : AgentContainerName) (v : β) :
    AgentContainerName → β :=
  fun c2 => if c2 = c then v else m c2

/-- Modelled from the spec: environment variable for one container, merged by
the default policy of the table, keyed by the variable name. -/
def FieldManagers.AddEnvVarToContainer (p : MergePolicies) (c : AgentContainerName)
    (newEnvVar : EnvVar) (s : FieldManagers) : FieldManagers × Option Error :=
  match addWithMergeFunc EnvVar.Name p.envVar newEnvVar (s.EnvVarsByC c) with
  | Except.ok l => ({ s with EnvVarsByC := setAt s.EnvVarsByC c l }, none)
  | Except.error e => (s, some e)

/-- Modelled from the spec: environment variable for all containers, kept under
the key `AllContainers`. -/
def FieldManagers.AddEnvVar (p : MergePolicies) (newEnvVar : EnvVar) (s : FieldManagers) :
    FieldManagers × Option Error :=
  FieldManagers.AddEnvVarToContainer p AllContainers newEnvVar s

/-- Modelled from the spec: volume mount for one container with an explicit
merge function, keyed by the mount name. -/
def FieldManagers.AddVolumeMountToContainerWithMergeFunc (newMount : VolumeMount)
    (c : AgentContainerName) (mergeFunc : VolumeMountMergeFunction) (s : FieldManagers) :
    FieldManagers × Option Error :=
  match addWithMergeFunc VolumeMount.Name mergeFunc newMount (s.VolumeMountsByC c) with
  | Except.ok l => ({ s with VolumeMountsByC := setAt s.VolumeMountsByC c l }, none)
  | Except.error e => (s, some e)

/-- Modelled from the spec: volume mount for one container, merged by the
default policy of the table. -/
def FieldManagers.AddVolumeMountToContainer (p : MergePolicies) (newMount : VolumeMount)
    (c : AgentContainerName) (s : FieldManagers) : FieldManagers × Option Error :=
  FieldManagers.AddVolumeMountToContainerWithMergeFunc newMount c p.volumeMount s

/-- Modelled from the spec: pod-level volume, merged by the default policy of
the table, keyed by the volume name. -/
def FieldManagers.AddVolume (p : MergePolicies) (newVolume : Volume) (s : FieldManagers) :
    FieldManagers × Option Error :=
  match addWithMergeFunc Volume.Name p.volume newVolume s.Volumes with
  | Except.ok l => ({ s with Volumes := l }, none)
  | Except.error e => (s, some e)

/-- Modelled from the spec: container port, policy "append, duplicates
allowed (ports, annotations)". -/
def FieldManagers.AddPortToContainer (c : AgentContainerName) (newPort : ContainerPort)
    (s : FieldManagers) : FieldManagers × Option Error :=
  ({ s with PortsByC := setAt s.PortsByC c (s.PortsByC c ++ [newPort]) }, none)

/-- Modelled from the spec: annotation, policy "append, duplicates allowed
(ports, annotations)". -/
def FieldManagers.AddAnnotation (key value : String) (s : FieldManagers) :
    FieldManagers × Option Error :=
  ({ s with Annotations := s.Annotations ++ [(key, value)] }, none)

/-- Assignment to the `HostPID` flag of the pod template. -/
def FieldManagers.SetHostPID (b : Bool) (s : FieldManagers) : FieldManagers :=
  { s with HostPID := b }

/-- Modelled from the spec: the field managers of the spec, with the table `p`
of default merge policies, as an implementation of the interface
`feature.PodTemplateManagers`. -/
def fieldManagers (p : MergePolicies) : PodTemplateManagers FieldManagers :=
  { AddEnvVar := FieldManagers.AddEnvVar p
    AddEnvVarToContainer := FieldManagers.AddEnvVarToContainer p
    AddVolumeMountToContainer := FieldManagers.AddVolumeMountToContainer p
    AddVolumeMountToContainerWithMergeFunc := FieldManagers.AddVolumeMountToContainerWithMergeFunc
    AddVolume := FieldManagers.AddVolume p
    AddPortToContainer := FieldManagers.AddPortToContainer
    AddAnnotation := FieldManagers.AddAnnotation
    SetHostPID := FieldManagers.SetHostPID }

/-! ## Package `livecontainer` -/

namespace livecontainer

/-- Go struct `liveContainerFeature`. -/
structure liveContainerFeature where
  runInCoreAgent : Bool := false
  deriving DecidableEq, Repr

/-- Go function `buildLiveContainerFeature`. -/
def buildLiveContainerFeature (options : Option Options) : liveContainerFeature :=
  let liveContainerFeat : liveContainerFeature := {}
  match options with
  | some o => { liveContainerFeat with runInCoreAgent := o.ProcessChecksInCoreAgentEnabled }
  | none => liveContainerFeat

/-- Go method `liveContainerFeature.Configure`: the receiver after the call and
the required components. `OverrideRunInCoreAgent` is `featutils.OverrideRunInCoreAgent`,
a helper outside the sources embedded here, taken as a parameter. -/
def Configure (OverrideRunInCoreAgent : DatadogAgent → Bool → Bool) (f : liveContainerFeature)
    (dda : DatadogAgent) : liveContainerFeature × RequiredComponents :=
  match dda.Spec.Features.LiveContainerCollection with
  | some liveContainerCollection =>
    if BoolValue liveContainerCollection.Enabled then
      let reqContainers : List AgentContainerName := [CoreAgentContainerName]
      let f : liveContainerFeature :=
        { f with runInCoreAgent := OverrideRunInCoreAgent dda f.runInCoreAgent }
      let reqContainers :=
        if !f.runInCoreAgent then reqContainers ++ [ProcessAgentContainerName] else reqContainers
      (f, { Agent := { IsRequired := NewBoolPointer true, Containers := reqContainers } })
    else (f, {})
  | none => (f, {})

/-- Go method `liveContainerFeature.ManageDependencies`; the resource managers
are any state `ρ`. -/
def ManageDependencies {ρ : Type} (f : liveContainerFeature) (managers : ρ)
    (_components : RequiredComponents) : Outcome liveContainerFeature ρ :=
  { receiver := f, managers := managers, err := none }

/-- Go method `liveContainerFeature.ManageClusterAgent`. -/
def ManageClusterAgent {σ : Type} (_m : PodTemplateManagers σ) (f : liveContainerFeature)
    (managers : σ) : Outcome liveContainerFeature σ :=
  { receiver := f, managers := managers, err := none }

/-- Go method `liveContainerFeature.manageNodeAgent`. -/
def manageNodeAgent {σ : Type} (m : PodTemplateManagers σ) (f : liveContainerFeature)
    (agentContainerName : AgentContainerName) (managers : σ) (_provider : String) :
    Outcome liveContainerFeature σ :=
  -- cgroups volume mount
  let (cgroupsVol, cgroupsVolMount) :=
    GetVolumes CgroupsVolumeName CgroupsHostPath CgroupsMountPath true
  let managers := (m.AddVolumeMountToContainer cgroupsVolMount agentContainerName managers).1
  let managers := (m.AddVolume cgroupsVol managers).1
  -- procdir volume mount
  let (procdirVol, procdirVolMount) :=
    GetVolumes ProcdirVolumeName ProcdirHostPath ProcdirMountPath true
  let managers := (m.AddVolumeMountToContainer procdirVolMount agentContainerName managers).1
  let managers := (m.AddVolume procdirVol managers).1
  let managers := (m.AddEnvVarToContainer agentContainerName
    { Name := DDContainerCollectionEnabled, Value := "true" } managers).1
  { receiver := f, managers := managers, err := none }

/-- Go method `liveContainerFeature.ManageSingleContainerNodeAgent`. -/
def ManageSingleContainerNodeAgent {σ : Type} (m : PodTemplateManagers σ)
    (f : liveContainerFeature) (managers : σ) (provider : String) :
    Outcome liveContainerFeature σ :=
  let runInCoreAgentEnvVar : EnvVar :=
    { Name := DDProcessConfigRunInCoreAgent, Value := BoolToString f.runInCoreAgent }
  let managers :=
    (m.AddEnvVarToContainer UnprivilegedSingleAgentContainerName runInCoreAgentEnvVar managers).1
  let r := manageNodeAgent m f UnprivilegedSingleAgentContainerName managers provider
  { receiver := r.receiver, managers := r.managers, err := none }

/-- Go method `liveContainerFeature.ManageNodeAgent`. -/
def ManageNodeAgent {σ : Type} (m : PodTemplateManagers σ) (f : liveContainerFeature)
    (managers : σ) (provider : String) : Outcome liveContainerFeature σ :=
  -- Always add this envvar to Core and Process containers
  let runInCoreAgentEnvVar : EnvVar :=
    { Name := DDProcessConfigRunInCoreAgent, Value := BoolToString f.runInCoreAgent }
  let managers := (m.AddEnvVarToContainer ProcessAgentContainerName runInCoreAgentEnvVar managers).1
  let managers := (m.AddEnvVarToContainer CoreAgentContainerName runInCoreAgentEnvVar managers).1
  let containerName :=
    if !f.runInCoreAgent then ProcessAgentContainerName else CoreAgentContainerName
  let r := manageNodeAgent m f containerName managers provider
  { receiver := r.receiver, managers := r.managers, err := none }

/-- Go method `liveContainerFeature.ManageClusterChecksRunner`. -/
def ManageClusterChecksRunner {σ : Type} (_m : PodTemplateManagers σ) (f : liveContainerFeature)
    (managers : σ) : Outcome liveContainerFeature σ :=
  { receiver := f, managers := managers, err := none }

end livecontainer

/-! ## Package `dogstatsd` -/

/-- Modelled from the spec: constant `apicommon.DefaultDogstatsdPort`. -/
def DefaultDogstatsdPort : Int := 8125

/-- Modelled from the spec: constant `apicommon.DefaultDogstatsdPortName`. -/
def DefaultDogstatsdPortName : String := "dogstatsdport"

/-- Modelled from the spec: constant `apicommon.DDDogstatsdPort`. -/
def DDDogstatsdPort : String := "DD_DOGSTATSD_PORT"

/-- Modelled from the spec: constant `apicommon.DDDogstatsdNonLocalTraffic`. -/
def DDDogstatsdNonLocalTraffic : String := "DD_DOGSTATSD_NON_LOCAL_TRAFFIC"

/-- Modelled from the spec: constant `apicommon.DogstatsdSocketVolumeName`. -/
def DogstatsdSocketVolumeName : String := "dsdsocket"

/-- Modelled from the spec: constant `apicommon.DogstatsdSocketLocalPath`. -/
def DogstatsdSocketLocalPath : String := "/var/run/datadog"

/-- Modelled from the spec: constant `apicommon.DDDogstatsdSocket`. -/
def DDDogstatsdSocket : String := "DD_DOGSTATSD_SOCKET"

/-- Modelled from the spec: constant `apicommon.DDDogstatsdOriginDetection`. -/
def DDDogstatsdOriginDetection : String := "DD_DOGSTATSD_ORIGIN_DETECTION"

/-- Modelled from the spec: constant `apicommon.DDDogstatsdOriginDetectionClient`. -/
def DDDogstatsdOriginDetectionClient : String := "DD_DOGSTATSD_ORIGIN_DETECTION_CLIENT"

/-- Modelled from the spec: constant `apicommon.DDDogstatsdTagCardinality`. -/
def DDDogstatsdTagCardinality : String := "DD_DOGSTATSD_TAG_CARDINALITY"

/-- Modelled from the spec: constant `apicommon.DDDogstatsdMapperProfiles`. -/
def DDDogstatsdMapperProfiles : String := "DD_DOGSTATSD_MAPPER_PROFILES"

/-- Kubernetes `corev1.KeyToPath`. -/
structure KeyToPath where
  Key : String := ""
  Path : String := ""
  deriving DecidableEq, Repr

/-- Go struct `apicommonv1.ConfigMapConfig`. -/
structure ConfigMapConfig where
  Name : String := ""
  Items : List KeyToPath := []
  deriving DecidableEq, Repr

/-- Go struct `apicommonv1.CustomConfig`. -/
structure CustomConfig where
  ConfigData : Option String := none
  ConfigMap : Option ConfigMapConfig := none
  deriving DecidableEq, Repr

/-- Library functions the features call and whose code is neither in the embedded
sources nor in this repository: `filepath.Dir`, `filepath.Base`,
`filepath.Join` of the Go standard library and `apiutils.YAMLToJSONString`.
They are a parameter of the embedding. -/
structure Externals where
  Dir : String → String
  Base : String → String
  Join : String → String → String
  YAMLToJSONString : String → String

/-- Go standard library `strconv.Itoa`: the decimal rendering of an integer. -/
def Itoa (n : Int) : String := toString n

namespace dogstatsd

/-- Go struct `dogstatsdFeature`; `owner` is the `metav1.Object` the feature
was configured from (`nil` before `Configure`). -/
structure dogstatsdFeature where
  hostPortEnabled : Bool := false
  hostPortHostPort : Int := 0
  udsEnabled : Bool := false
  udsHostFilepath : String := ""
  useHostNetwork : Bool := false
  originDetectionEnabled : Bool := false
  tagCardinality : String := ""
  mapperProfiles : Option CustomConfig := none
  forceEnableLocalService : Bool := false
  localServiceName : String := ""
  owner : Option DatadogAgent := none
  deriving DecidableEq, Repr

/-- Go function `buildDogstatsdFeature`. -/
def buildDogstatsdFeature (_options : Option Options) : dogstatsdFeature := {}

/-- Go method `dogstatsdFeature.ManageClusterAgent`. -/
def ManageClusterAgent {σ : Type} (_m : PodTemplateManagers σ) (f : dogstatsdFeature)
    (managers : σ) : Outcome dogstatsdFeature σ :=
  { receiver := f, managers := managers, err := none }

/-- Go method `dogstatsdFeature.manageNodeAgent`. The result is `none` when the
Go code panics: `Items[0]` on a config map without items. -/
def manageNodeAgent {σ : Type} (x : Externals) (m : PodTemplateManagers σ) (f : dogstatsdFeature)
    (agentContainerName : AgentContainerName) (managers : σ) (_provider : String) :
    Option (Outcome dogstatsdFeature σ) :=
  -- udp
  let dogstatsdPort : ContainerPort :=
    { Name := DefaultDogstatsdPortName, ContainerPort := DefaultDogstatsdPort,
      Protocol := Protocol.ProtocolUDP }
  let (dogstatsdPort, managers) :=
    if f.hostPortEnabled then
      let dsdPortEnvVarValue : Int := DefaultDogstatsdPort
      let (dogstatsdPort, dsdPortEnvVarValue) :=
        if f.hostPortHostPort ≠ 0 then
          let dogstatsdPort : ContainerPort := { dogstatsdPort with HostPort := f.hostPortHostPort }
          -- if using host network, host port should be set and needs to match container port
          if f.useHostNetwork then
            (({ dogstatsdPort with ContainerPort := f.hostPortHostPort } : ContainerPort),
              f.hostPortHostPort)
          else (dogstatsdPort, dsdPortEnvVarValue)
        else (dogstatsdPort, dsdPortEnvVarValue)
      let managers := (m.AddEnvVarToContainer agentContainerName
        { Name := DDDogstatsdPort, Value := Itoa dsdPortEnvVarValue } managers).1
      let managers := (m.AddEnvVarToContainer agentContainerName
        { Name := DDDogstatsdNonLocalTraffic, Value := "true" } managers).1
      (dogstatsdPort, managers)
    else (dogstatsdPort, managers)
  let managers := (m.AddPortToContainer agentContainerName dogstatsdPort managers).1
  -- uds
  let managers :=
    if f.udsEnabled then
      let udsHostFolder := x.Dir f.udsHostFilepath
      let sockName := x.Base f.udsHostFilepath
      let (socketVol, socketVolMount) :=
        GetVolumes DogstatsdSocketVolumeName udsHostFolder DogstatsdSocketLocalPath false
      let volType := HostPathType.HostPathDirectoryOrCreate
      let socketVol : Volume :=
        { socketVol with
          VolumeSource :=
            { HostPath := socketVol.VolumeSource.HostPath.map
                (fun hostPath => { hostPath with Type_ := some volType }) } }
      let managers := (m.AddVolumeMountToContainerWithMergeFunc socketVolMount agentContainerName
        OverrideCurrentVolumeMountMergeFunction managers).1
      let managers := (m.AddVolume socketVol managers).1
      (m.AddEnvVar
        { Name := DDDogstatsdSocket, Value := x.Join DogstatsdSocketLocalPath sockName } managers).1
    else managers
  let managers :=
    if f.originDetectionEnabled then
      let managers := (m.AddEnvVarToContainer agentContainerName
        { Name := DDDogstatsdOriginDetection, Value := "true" } managers).1
      let managers := (m.AddEnvVarToContainer agentContainerName
        { Name := DDDogstatsdOriginDetectionClient, Value := "true" } managers).1
      let managers := if f.udsEnabled then m.SetHostPID true managers else managers
      -- Tag cardinality is only configured if origin detection is enabled.
      if f.tagCardinality ≠ "" then
        (m.AddEnvVarToContainer CoreAgentContainerName
          { Name := DDDogstatsdTagCardinality, Value := f.tagCardinality } managers).1
      else managers
    else managers
  -- mapper profiles
  match f.mapperProfiles with
  | some mapperProfiles =>
    match mapperProfiles.ConfigData with
    | some configData =>
      -- configdata
      let managers := (m.AddEnvVarToContainer CoreAgentContainerName
        { Name := DDDogstatsdMapperProfiles, Value := x.YAMLToJSONString configData } managers).1
      -- ignore configmap if configdata is set
      some { receiver := f, managers := managers, err := none }
    | none =>
      match mapperProfiles.ConfigMap with
      | some configMap =>
        match configMap.Items with
        | [] => none
        | item :: _ =>
          let cmSelector : ConfigMapKeySelector := { Name := configMap.Name, Key := item.Key }
          let managers := (m.AddEnvVarToContainer CoreAgentContainerName
            { Name := DDDogstatsdMapperProfiles,
              ValueFrom := some { ConfigMapKeyRef := some cmSelector } } managers).1
          some { receiver := f, managers := managers, err := none }
      | none => some { receiver := f, managers := managers, err := none }
  | none => some { receiver := f, managers := managers, err := none }

/-- Go method `dogstatsdFeature.ManageSingleContainerNodeAgent`. -/
def ManageSingleContainerNodeAgent {σ : Type} (x : Externals) (m : PodTemplateManagers σ)
    (f : dogstatsdFeature) (managers : σ) (provider : String) :
    Option (Outcome dogstatsdFeature σ) :=
  match manageNodeAgent x m f UnprivilegedSingleAgentContainerName managers provider with
  | some r => some { receiver := r.receiver, managers := r.managers, err := none }
  | none => none

/-- Go method `dogstatsdFeature.ManageNodeAgent`. -/
def ManageNodeAgent {σ : Type} (x : Externals) (m : PodTemplateManagers σ)
    (f : dogstatsdFeature) (managers : σ) (provider : String) :
    Option (Outcome dogstatsdFeature σ) :=
  match manageNodeAgent x m f CoreAgentContainerName managers provider with
  | some r => some { receiver := r.receiver, managers := r.managers, err := none }
  | none => none

/-- Go method `dogstatsdFeature.ManageClusterChecksRunner`. -/
def ManageClusterChecksRunner {σ : Type} (_m : PodTemplateManagers σ) (f : dogstatsdFeature)
    (managers : σ) : Outcome dogstatsdFeature σ :=
  { receiver := f, managers := managers, err := none }

end dogstatsd

/-! ## Resource managers and package `enabledefault` -/

/-- Kubernetes `rbacv1.PolicyRule`. -/
structure PolicyRule where
  APIGroups : List String := []
  Resources : List String := []
  ResourceNames : List String := []
  NonResourceURLs : List String := []
  Verbs : List String := []
  deriving DecidableEq, Repr

/-- Kubernetes `corev1.ConfigMap`: identity and data; the Go map is the list of
its entries. -/
structure ConfigMap where
  Name : String := ""
  Namespace : String := ""
  Data : List (String × String) := []
  deriving DecidableEq, Repr

/-- Kubernetes `corev1.Service`, by its identity. -/
structure Service where
  Name : String := ""
  Namespace : String := ""
  deriving DecidableEq, Repr

/-- Go type `kubernetes.ObjectKind`, the two kinds the default feature stores. -/
inductive ObjectKind where
  | ConfigMapKind
  | ServicesKind
  deriving DecidableEq, Repr

/-- Objects handed to the store. -/
inductive StoreObject where
  | configMap (cm : ConfigMap)
  | service (svc : Service)
  deriving DecidableEq, Repr

/-- Kubernetes `version.Info`, the version of the cluster. -/
structure VersionInfo where
  Major : String := ""
  Minor : String := ""
  GitVersion : String := ""
  deriving DecidableEq, Repr

/-- Kubernetes `intstr.IntOrString`. -/
inductive IntOrString where
  | Int (IntVal : Int)
  | String (StrVal : String)
  deriving DecidableEq, Repr

/-- Kubernetes `intstr.FromInt`, on values in the `int32` range. -/
def FromInt (val : Int) : IntOrString := IntOrString.Int val

/-- Kubernetes `corev1.ServicePort`. -/
structure ServicePort where
  Name : String := ""
  Protocol : Protocol := Protocol.Unset
  Port : Int := 0
  TargetPort : IntOrString := IntOrString.Int 0
  deriving DecidableEq, Repr

/-- Kubernetes `corev1.ServiceInternalTrafficPolicy`. -/
inductive ServiceInternalTrafficPolicy where
  | ServiceInternalTrafficPolicyCluster
  | ServiceInternalTrafficPolicyLocal
  deriving DecidableEq, Repr

/-- Modelled from the spec: the interface `feature.ResourceManagers` is declared
outside the sources embedded here: "a ResourceManagers facade exposing add-or-update
operations for secrets, config maps, services, and RBAC objects". Its
operations are the ones the default feature calls,
`managers.SecretManager().AddSecret(...)` being the field `AddSecret` and
`managers.Store().AddOrUpdate(...)` the field `AddOrUpdate`; each takes the
state of the managers and gives the state after the call and the returned
error. The logger argument of `AddAnnotations` is left out.
`managers.Store().GetVersionInfo()` is the field `GetVersionInfo` and
`managers.ServiceManager().AddService(...)` the field `AddService`. -/
structure ResourceManagers (ρ : Type) where
  AddSecret : (ns name key value : String) → ρ → ρ × Option Error
  AddAnnotations : (ns name : String) → List (String × String) → ρ → ρ × Option Error
  AddOrUpdate : ObjectKind → StoreObject → ρ → ρ × Option Error
  AddServiceAccountByComponent : (ns name component : String) → ρ → ρ × Option Error
  AddClusterPolicyRules :
    (ns roleName saName : String) → List PolicyRule → ρ → ρ × Option Error
  AddPolicyRulesByComponent :
    (ns roleName saName : String) → List PolicyRule → (component : String) → ρ →
      ρ × Option Error
  AddClusterPolicyRulesByComponent :
    (ns roleName saName : String) → List PolicyRule → (component : String) → ρ →
      ρ × Option Error
  AddConfigMap : (name ns : String) → List (String × String) → ρ → ρ × Option Error
  GetVersionInfo : ρ → Option VersionInfo
  AddService :
    (name ns : String) → (selector : List (String × String)) → List ServicePort →
      Option ServiceInternalTrafficPolicy → ρ → ρ × Option Error

/-- Kubernetes library `errors.NewAggregate`: `nil` when the list holds no
non-nil error, otherwise the aggregate of its non-nil errors. -/
def NewAggregate (errlist : List (Option Error)) : Option Error :=
  match errlist.filterMap id with
  | [] => none
  | errs => some (Error.Aggregate errs)

/-- Modelled from the spec: constant `v2alpha1.NodeAgentComponentName`. -/
def NodeAgentComponentName : String := "nodeAgent"

/-- Modelled from the spec: constant `v2alpha1.ClusterAgentComponentName`. -/
def ClusterAgentComponentName : String := "clusterAgent"

/-- Modelled from the spec: constant `v2alpha1.ClusterChecksRunnerComponentName`. -/
def ClusterChecksRunnerComponentName : String := "clusterChecksRunner"

/-- Modelled from the spec: constant `apicommon.InstallInfoToolVersion`, the
name of an environment variable of the operator process. -/
def InstallInfoToolVersion : String := "DD_TOOL_VERSION"

namespace enabledefault

/-- Go struct `keyInfo`. -/
structure keyInfo where
  SecretName : String := ""
  SecretKey : String := ""
  deriving DecidableEq, Repr

/-- Go struct `secretInfo`; the Go map `data` is the list of its entries, in
the order a `range` over it visits them. -/
structure secretInfo where
  createSecret : Bool := false
  name : String := ""
  data : List (String × String) := []
  deriving DecidableEq, Repr

/-- Go struct `credentialsInfo`. -/
structure credentialsInfo where
  apiKey : keyInfo := {}
  appKey : keyInfo := {}
  secretCreation : secretInfo := {}
  deriving DecidableEq, Repr

/-- Go struct `dcaTokenInfo`. -/
structure dcaTokenInfo where
  token : keyInfo := {}
  secretCreation : secretInfo := {}
  deriving DecidableEq, Repr

/-- Go struct `clusterAgentConfig`. -/
structure clusterAgentConfig where
  serviceAccountName : String := ""
  deriving DecidableEq, Repr

/-- Go struct `agentConfig`. -/
structure agentConfig where
  serviceAccountName : String := ""
  deriving DecidableEq, Repr

/-- Go struct `clusterChecksRunnerConfig`. -/
structure clusterChecksRunnerConfig where
  serviceAccountName : String := ""
  deriving DecidableEq, Repr

/-- Go struct `defaultFeature`, without the logger. -/
structure defaultFeature where
  owner : Option DatadogAgent := none
  credentialsInfo : credentialsInfo := {}
  dcaTokenInfo : dcaTokenInfo := {}
  clusterAgent : clusterAgentConfig := {}
  agent : agentConfig := {}
  clusterChecksRunner : clusterChecksRunnerConfig := {}
  disableNonResourceRules : Bool := false
  otelAgentEnabled : Bool := false
  customConfigAnnotationKey : String := ""
  customConfigAnnotationValue : String := ""
  deriving DecidableEq, Repr

/-- Functions and process state the default feature reads and whose code is
outside the sources embedded here: name and rule builders of the packages `common`,
`component/agent`, `component/clusteragent` and of this package's other files,
`os.Getenv` and `version.Version`. They are a parameter of the embedding. -/
structure Helpers where
  GetAgentRoleName : DatadogAgent → String
  getDefaultAgentClusterRolePolicyRules : Bool → List PolicyRule
  GetDefaultSeccompConfigMapName : DatadogAgent → String
  DefaultSeccompConfigDataForSystemProbe : List (String × String)
  GetClusterAgentRbacResourcesName : DatadogAgent → String
  getDefaultClusterAgentRolePolicyRules : DatadogAgent → List PolicyRule
  getDefaultClusterAgentClusterRolePolicyRules : DatadogAgent → List PolicyRule
  GetClusterAgentService : DatadogAgent → Service
  getCCRRbacResourcesName : DatadogAgent → String
  getDefaultClusterChecksRunnerClusterRolePolicyRules : DatadogAgent → Bool → List PolicyRule
  GetInstallInfoConfigMapName : DatadogAgent → String
  Getenv : String → String
  Version : String

/-- Go function `getInstallInfoValue`: the template `installInfoDataTmpl` filled
with the tool version and the operator version. -/
def getInstallInfoValue (h : Helpers) : String :=
  let toolVersion := "unknown"
  let envVar := h.Getenv InstallInfoToolVersion
  let toolVersion := if envVar ≠ "" then envVar else toolVersion
  "---\ninstall_method:\n  tool: datadog-operator\n  tool_version: " ++ toolVersion ++
    "\n  installer_version: " ++ h.Version ++ "\n"

/-- Go function `buildInstallInfoConfigMap`. -/
def buildInstallInfoConfigMap (h : Helpers) (dda : DatadogAgent) : ConfigMap :=
  { Name := h.GetInstallInfoConfigMapName dda, Namespace := dda.Namespace,
    Data := [("install_info", getInstallInfoValue h)] }

/-- The statement `if err := call; err != nil { errs = append(errs, err) }`. -/
def appendIfErr (errs : List (Option Error)) (err : Option Error) : List (Option Error) :=
  match err with
  | some e => errs ++ [some e]
  | none => errs

/-- The loop `for key, value := range data { if err := AddSecret(ns, name, key,
value); err != nil { errs = append(errs, err) } }` of `ManageDependencies`. -/
def rangeAddSecret {ρ : Type} (m : ResourceManagers ρ) (ns name : String) :
    List (String × String) → ρ → List (Option Error) → ρ × List (Option Error)
  | [], managers, errs => (managers, errs)
  | (key, value) :: rest, managers, errs =>
    let r := m.AddSecret ns name key value managers
    rangeAddSecret m ns name rest r.1 (appendIfErr errs r.2)

/-- The loop over `requiredComponent.Containers` of `agentDependencies`: the
result of `AddConfigMap` is appended as it is, `nil` included. -/
def rangeSeccompConfigMap {ρ : Type} (h : Helpers) (m : ResourceManagers ρ)
    (owner : DatadogAgent) :
    List AgentContainerName → ρ → List (Option Error) → ρ × List (Option Error)
  | [], managers, errs => (managers, errs)
  | containerName :: rest, managers, errs =>
    if containerName = SystemProbeContainerName then
      let r := m.AddConfigMap (h.GetDefaultSeccompConfigMapName owner) owner.Namespace
        h.DefaultSeccompConfigDataForSystemProbe managers
      rangeSeccompConfigMap h m owner rest r.1 (errs ++ [r.2])
    else rangeSeccompConfigMap h m owner rest managers errs

/-- Go method `defaultFeature.agentDependencies`; `owner` is the non-nil
`f.owner`. -/
def agentDependencies {ρ : Type} (h : Helpers) (m : ResourceManagers ρ) (f : defaultFeature)
    (owner : DatadogAgent) (managers : ρ) (requiredComponent : RequiredComponent) :
    ρ × Option Error :=
  let errs : List (Option Error) := []
  -- serviceAccount
  let (managers, errs) :=
    if f.agent.serviceAccountName ≠ "" then
      let r := m.AddServiceAccountByComponent owner.Namespace f.agent.serviceAccountName
        NodeAgentComponentName managers
      (r.1, appendIfErr errs r.2)
    else (managers, errs)
  -- ClusterRole creation
  let r := m.AddClusterPolicyRules owner.Namespace (h.GetAgentRoleName owner)
    f.agent.serviceAccountName (h.getDefaultAgentClusterRolePolicyRules f.disableNonResourceRules)
    managers
  let (managers, errs) := (r.1, appendIfErr errs r.2)
  -- Create a configmap for the default seccomp profile in the System Probe.
  let (managers, errs) :=
    rangeSeccompConfigMap h m owner requiredComponent.Containers managers errs
  (managers, NewAggregate errs)

/-- Go method `defaultFeature.clusterAgentDependencies`; `owner` is the non-nil
`f.owner`. -/
def clusterAgentDependencies {ρ : Type} (h : Helpers) (m : ResourceManagers ρ)
    (f : defaultFeature) (owner : DatadogAgent) (managers : ρ) (_component : RequiredComponent) :
    ρ × Option Error :=
  let errs : List (Option Error) := []
  let (managers, errs) :=
    if f.clusterAgent.serviceAccountName ≠ "" then
      -- Service Account creation
      let r := m.AddServiceAccountByComponent owner.Namespace f.clusterAgent.serviceAccountName
        ClusterAgentComponentName managers
      let (managers, errs) := (r.1, appendIfErr errs r.2)
      -- Role Creation
      let r := m.AddPolicyRulesByComponent owner.Namespace
        (h.GetClusterAgentRbacResourcesName owner) f.clusterAgent.serviceAccountName
        (h.getDefaultClusterAgentRolePolicyRules owner) ClusterAgentComponentName managers
      let (managers, errs) := (r.1, appendIfErr errs r.2)
      -- ClusterRole creation
      let r := m.AddClusterPolicyRulesByComponent owner.Namespace
        (h.GetClusterAgentRbacResourcesName owner) f.clusterAgent.serviceAccountName
        (h.getDefaultClusterAgentClusterRolePolicyRules owner) ClusterAgentComponentName managers
      (r.1, appendIfErr errs r.2)
    else (managers, errs)
  let dcaService := h.GetClusterAgentService owner
  let r := m.AddOrUpdate ObjectKind.ServicesKind (StoreObject.service dcaService) managers
  match r.2 with
  | some err => (r.1, some err)
  | none => (r.1, NewAggregate errs)

/-- Go method `defaultFeature.clusterChecksRunnerDependencies`; `owner` is the
non-nil `f.owner`. -/
def clusterChecksRunnerDependencies {ρ : Type} (h : Helpers) (m : ResourceManagers ρ)
    (f : defaultFeature) (owner : DatadogAgent) (managers : ρ) (_component : RequiredComponent) :
    ρ × Option Error :=
  let errs : List (Option Error) := []
  let (managers, errs) :=
    if f.clusterChecksRunner.serviceAccountName ≠ "" then
      -- Service Account creation
      let r := m.AddServiceAccountByComponent owner.Namespace
        f.clusterChecksRunner.serviceAccountName ClusterChecksRunnerComponentName managers
      let (managers, errs) := (r.1, appendIfErr errs r.2)
      -- ClusterRole creation
      let r := m.AddClusterPolicyRulesByComponent owner.Namespace (h.getCCRRbacResourcesName owner)
        f.clusterChecksRunner.serviceAccountName
        (h.getDefaultClusterChecksRunnerClusterRolePolicyRules owner f.disableNonResourceRules)
        ClusterChecksRunnerComponentName managers
      (r.1, appendIfErr errs r.2)
    else (managers, errs)
  (managers, NewAggregate errs)

/-- Go method `defaultFeature.ManageDependencies`. The result is `none` when the
Go code panics: `f.owner` is `nil` (the feature was not configured), which the
code dereferences before its first call of a manager. -/
def ManageDependencies {ρ : Type} (h : Helpers) (m : ResourceManagers ρ) (f : defaultFeature)
    (managers : ρ) (components : RequiredComponents) : Option (Outcome defaultFeature ρ) :=
  match f.owner with
  | none => none
  | some owner =>
    let errs : List (Option Error) := []
    -- manage credential secret
    let (managers, errs) :=
      if f.credentialsInfo.secretCreation.createSecret then
        rangeAddSecret m owner.Namespace f.credentialsInfo.secretCreation.name
          f.credentialsInfo.secretCreation.data managers errs
      else (managers, errs)
    let (managers, errs) :=
      if components.ClusterAgent.IsEnabled && f.dcaTokenInfo.secretCreation.createSecret then
        let (managers, errs) :=
          rangeAddSecret m owner.Namespace f.dcaTokenInfo.secretCreation.name
            f.dcaTokenInfo.secretCreation.data managers errs
        -- Adding Annotation containing data hash to secret.
        let r := m.AddAnnotations owner.Namespace f.dcaTokenInfo.secretCreation.name
          [(f.customConfigAnnotationKey, f.customConfigAnnotationValue)] managers
        (r.1, appendIfErr errs r.2)
      else (managers, errs)
    -- Create install-info configmap
    let installInfoCM := buildInstallInfoConfigMap h owner
    let r := m.AddOrUpdate ObjectKind.ConfigMapKind (StoreObject.configMap installInfoCM) managers
    match r.2 with
    | some err => some { receiver := f, managers := r.1, err := some err }
    | none =>
      let managers := r.1
      let (managers, errs) :=
        if components.Agent.IsEnabled then
          let r := agentDependencies h m f owner managers components.Agent
          (r.1, appendIfErr errs r.2)
        else (managers, errs)
      let (managers, errs) :=
        if components.ClusterAgent.IsEnabled then
          let r := clusterAgentDependencies h m f owner managers components.ClusterAgent
          (r.1, appendIfErr errs r.2)
        else (managers, errs)
      let (managers, errs) :=
        if components.ClusterChecksRunner.IsEnabled then
          let r := clusterChecksRunnerDependencies h m f owner managers
            components.ClusterChecksRunner
          (r.1, appendIfErr errs r.2)
        else (managers, errs)
      some { receiver := f, managers := managers, err := NewAggregate errs }

end enabledefault

/-! ## Managers that keep a record of what happened -/

/-- One call of an operation of `ResourceManagers`, with its arguments. -/
inductive ResourceCall where
  | AddSecret (ns name key value : String)
  | AddAnnotations (ns name : String) (annotations : List (String × String))
  | AddOrUpdate (kind : ObjectKind) (obj : StoreObject)
  | AddServiceAccountByComponent (ns name component : String)
  | AddClusterPolicyRules (ns roleName saName : String) (rules : List PolicyRule)
  | AddPolicyRulesByComponent (ns roleName saName : String) (rules : List PolicyRule)
      (component : String)
  | AddClusterPolicyRulesByComponent (ns roleName saName : String) (rules : List PolicyRule)
      (component : String)
  | AddConfigMap (name ns : String) (data : List (String × String))
  | AddService (name ns : String) (selector : List (String × String)) (ports : List ServicePort)
      (internalTrafficPolicy : Option ServiceInternalTrafficPolicy)
  deriving DecidableEq, Repr

/-- Resource managers whose operations succeed or fail as `outcome` says and
whose state is the list of the calls attempted so far, oldest first. They know
no cluster version. -/
def recordingManagers (outcome : ResourceCall → Option Error) :
    ResourceManagers (List ResourceCall) :=
  { AddSecret := fun ns name key value calls =>
      (calls ++ [ResourceCall.AddSecret ns name key value],
        outcome (ResourceCall.AddSecret ns name key value))
    AddAnnotations := fun ns name annotations calls =>
      (calls ++ [ResourceCall.AddAnnotations ns name annotations],
        outcome (ResourceCall.AddAnnotations ns name annotations))
    AddOrUpdate := fun kind obj calls =>
      (calls ++ [ResourceCall.AddOrUpdate kind obj], outcome (ResourceCall.AddOrUpdate kind obj))
    AddServiceAccountByComponent := fun ns name component calls =>
      (calls ++ [ResourceCall.AddServiceAccountByComponent ns name component],
        outcome (ResourceCall.AddServiceAccountByComponent ns name component))
    AddClusterPolicyRules := fun ns roleName saName rules calls =>
      (calls ++ [ResourceCall.AddClusterPolicyRules ns roleName saName rules],
        outcome (ResourceCall.AddClusterPolicyRules ns roleName saName rules))
    AddPolicyRulesByComponent := fun ns roleName saName rules component calls =>
      (calls ++ [ResourceCall.AddPolicyRulesByComponent ns roleName saName rules component],
        outcome (ResourceCall.AddPolicyRulesByComponent ns roleName saName rules component))
    AddClusterPolicyRulesByComponent := fun ns roleName saName rules component calls =>
      (calls ++ [ResourceCall.AddClusterPolicyRulesByComponent ns roleName saName rules component],
        outcome (ResourceCall.AddClusterPolicyRulesByComponent ns roleName saName rules component))
    AddConfigMap := fun name ns data calls =>
      (calls ++ [ResourceCall.AddConfigMap name ns data],
        outcome (ResourceCall.AddConfigMap name ns data))
    GetVersionInfo := fun _ => none
    AddService := fun name ns selector ports internalTrafficPolicy calls =>
      (calls ++ [ResourceCall.AddService name ns selector ports internalTrafficPolicy],
        outcome (ResourceCall.AddService name ns selector ports internalTrafficPolicy)) }

/-- The recording resource managers of a cluster whose version is
`versionInfo`. -/
def recordingManagersAt (versionInfo : Option VersionInfo)
    (outcome : ResourceCall → Option Error) : ResourceManagers (List ResourceCall) :=
  { recordingManagers outcome with GetVersionInfo := fun _ => versionInfo }

/-- One call of an operation of `PodTemplateManagers`, with its arguments. -/
inductive Contribution where
  | AddEnvVar (newEnvVar : EnvVar)
  | AddEnvVarToContainer (containerName : AgentContainerName) (newEnvVar : EnvVar)
  | AddVolumeMountToContainer (newMount : VolumeMount) (containerName : AgentContainerName)
  | AddVolumeMountToContainerWithMergeFunc (newMount : VolumeMount)
      (containerName : AgentContainerName) (mergeFunc : VolumeMountMergeFunction)
  | AddVolume (newVolume : Volume)
  | AddPortToContainer (containerName : AgentContainerName) (newPort : ContainerPort)
  | AddAnnotation (key value : String)
  | SetHostPID (hostPID : Bool)

/-- Pod-template managers whose state is the list of the calls made so far,
oldest first; every call succeeds. -/
def recordingContributions : PodTemplateManagers (List Contribution) :=
  { AddEnvVar := fun e calls => (calls ++ [Contribution.AddEnvVar e], none)
    AddEnvVarToContainer := fun c e calls =>
      (calls ++ [Contribution.AddEnvVarToContainer c e], none)
    AddVolumeMountToContainer := fun v c calls =>
      (calls ++ [Contribution.AddVolumeMountToContainer v c], none)
    AddVolumeMountToContainerWithMergeFunc := fun v c mergeFunc calls =>
      (calls ++ [Contribution.AddVolumeMountToContainerWithMergeFunc v c mergeFunc], none)
    AddVolume := fun v calls => (calls ++ [Contribution.AddVolume v], none)
    AddPortToContainer := fun c p calls => (calls ++ [Contribution.AddPortToContainer c p], none)
    AddAnnotation := fun k v calls => (calls ++ [Contribution.AddAnnotation k v], none)
    SetHostPID := fun b calls => calls ++ [Contribution.SetHostPID b] }

/-- The environment variable of a call, with the container it is for (`none`
for a variable contributed to every container). -/
def Contribution.envVar : Contribution → Option (Option AgentContainerName × EnvVar)
  | Contribution.AddEnvVar e => some (none, e)
  | Contribution.AddEnvVarToContainer c e => some (some c, e)
  | _ => none

/-- The container port of a call, with the container it is for. -/
def Contribution.port : Contribution → Option (AgentContainerName × ContainerPort)
  | Contribution.AddPortToContainer c p => some (c, p)
  | _ => none

/-- The container a call is scoped to, if it is scoped to one. -/
def Contribution.container : Contribution → Option AgentContainerName
  | Contribution.AddEnvVarToContainer c _ => some c
  | Contribution.AddVolumeMountToContainer _ c => some c
  | Contribution.AddVolumeMountToContainerWithMergeFunc _ c _ => some c
  | Contribution.AddPortToContainer c _ => some c
  | _ => none

/-- Whether a call contributes a volume or a volume mount. -/
def Contribution.isVolumeOrMount : Contribution → Bool
  | Contribution.AddVolumeMountToContainer _ _ => true
  | Contribution.AddVolumeMountToContainerWithMergeFunc _ _ _ => true
  | Contribution.AddVolume _ => true
  | _ => false

/-- Pod-template managers that behave as `m` and also keep, oldest first, the
errors the operations of `m` returned. -/
def recordingErrors {σ : Type} (m : PodTemplateManagers σ) :
    PodTemplateManagers (σ × List Error) :=
  let keep : σ × Option Error → List Error → (σ × List Error) × Option Error :=
    fun r errors => ((r.1, errors ++ r.2.toList), r.2)
  { AddEnvVar := fun e s => keep (m.AddEnvVar e s.1) s.2
    AddEnvVarToContainer := fun c e s => keep (m.AddEnvVarToContainer c e s.1) s.2
    AddVolumeMountToContainer := fun v c s => keep (m.AddVolumeMountToContainer v c s.1) s.2
    AddVolumeMountToContainerWithMergeFunc := fun v c mergeFunc s =>
      keep (m.AddVolumeMountToContainerWithMergeFunc v c mergeFunc s.1) s.2
    AddVolume := fun v s => keep (m.AddVolume v s.1) s.2
    AddPortToContainer := fun c p s => keep (m.AddPortToContainer c p s.1) s.2
    AddAnnotation := fun k v s => keep (m.AddAnnotation k v s.1) s.2
    SetHostPID := fun b s => (m.SetHostPID b s.1, s.2) }

/-! ## Package `dogstatsd`: dependencies -/

/-- Modelled from the spec: constant `apicommon.DogstatsdHostPortName`. -/
def DogstatsdHostPortName : String := "dogstatsd"

namespace dogstatsd

/-- Functions `dogstatsdFeature.ManageDependencies` calls and whose code is
outside the sources embedded here: `common.ShouldCreateAgentLocalService`, the
"version/capability probe used to decide whether an optional object (e.g., a
local service) should be created at all", and
`common.GetAgentLocalServiceSelector`. They are a parameter of the embedding. -/
structure LocalServiceHelpers where
  ShouldCreateAgentLocalService : Option VersionInfo → Bool → Bool
  GetAgentLocalServiceSelector : DatadogAgent → List (String × String)

/-- Go method `dogstatsdFeature.ManageDependencies`. The result is `none` when
the Go code panics: the service is to be created and `f.owner` is `nil`. -/
def ManageDependencies {ρ : Type} (h : LocalServiceHelpers) (m : ResourceManagers ρ)
    (f : dogstatsdFeature) (managers : ρ) (_components : RequiredComponents) :
    Option (Outcome dogstatsdFeature ρ) :=
  -- agent local service
  if h.ShouldCreateAgentLocalService (m.GetVersionInfo managers) f.forceEnableLocalService then
    let dsdPort : ServicePort :=
      { Protocol := Protocol.ProtocolUDP
        TargetPort := FromInt DefaultDogstatsdPort
        Port := DefaultDogstatsdPort
        Name := DefaultDogstatsdPortName }
    let dsdPort : ServicePort :=
      if f.hostPortEnabled then
        let dsdPort : ServicePort := { dsdPort with Port := f.hostPortHostPort }
        let dsdPort : ServicePort := { dsdPort with Name := DogstatsdHostPortName }
        if f.useHostNetwork then { dsdPort with TargetPort := FromInt f.hostPortHostPort }
        else dsdPort
      else dsdPort
    let serviceInternalTrafficPolicy :=
      ServiceInternalTrafficPolicy.ServiceInternalTrafficPolicyLocal
    match f.owner with
    | none => none
    | some owner =>
      let r := m.AddService f.localServiceName owner.Namespace
        (h.GetAgentLocalServiceSelector owner) [dsdPort] (some serviceInternalTrafficPolicy)
        managers
      match r.2 with
      | some err => some { receiver := f, managers := r.1, err := some err }
      | none => some { receiver := f, managers := r.1, err := none }
  else some { receiver := f, managers := managers, err := none }

end dogstatsd

/-! ## Package `enabledefault`: construction and configuration -/

/-- Modelled from the spec: constant `apicommon.DefaultAPIKeyKey`. -/
def DefaultAPIKeyKey : String := "api_key"

/-- Modelled from the spec: constant `apicommon.DefaultAPPKeyKey`. -/
def DefaultAPPKeyKey : String := "app_key"

/-- Modelled from the spec: constant `apicommon.DefaultTokenKey`. -/
def DefaultTokenKey : String := "token"

/-- Modelled from the spec: constant `feature.DefaultIDType`, the identifier of
the default feature. -/
def DefaultIDType : String := "default"

/-- Assignment `data[key] = value` to a Go map kept as the list of its entries:
the entry of the key is replaced, or a new entry is added. -/
def mapSet (data : List (String × String)) (key value : String) : List (String × String) :=
  match data with
  | [] => [(key, value)]
  | (k, v) :: rest => if k = key then (key, value) :: rest else (k, v) :: mapSet rest key value

namespace enabledefault

/-- Functions `defaultFeature.Configure` calls and whose code is outside the
sources embedded here: the name builders of package `v2alpha1`,
`comparison.GenerateMD5ForSpec` (its hash; its error is only logged) and
`object.GetChecksumAnnotationKey`. They are a parameter of the embedding. -/
structure ConfigureHelpers where
  GetClusterAgentServiceAccount : DatadogAgent → String
  GetAgentServiceAccount : DatadogAgent → String
  GetClusterChecksRunnerServiceAccount : DatadogAgent → String
  GetDefaultCredentialsSecretName : DatadogAgent → String
  GetDefaultDCATokenSecretName : DatadogAgent → String
  GenerateMD5ForSpec : List (String × String) → String
  GetChecksumAnnotationKey : String → String

/-- Go function `buildDefaultFeature`: both secret data maps are made empty. -/
def buildDefaultFeature (options : Option Options) : defaultFeature :=
  let dF : defaultFeature :=
    { credentialsInfo := { secretCreation := { data := [] } }
      dcaTokenInfo := { secretCreation := { data := [] } } }
  match options with
  | some o => { dF with otelAgentEnabled := o.OtelAgentEnabled }
  | none => dF

/-- The block of `defaultFeature.Configure` under
`if dda.Spec.Global.Credentials != nil`: the API and application keys, given
literally or by a reference to a secret. -/
def configureCredentials (h : ConfigureHelpers) (f : defaultFeature) (dda : DatadogAgent)
    (creds : DatadogCredentials) : defaultFeature :=
  let f :=
    if creds.APIKey ≠ none ∨ creds.AppKey ≠ none then
      let f := { f with credentialsInfo.secretCreation.createSecret := true }
      { f with credentialsInfo.secretCreation.name := h.GetDefaultCredentialsSecretName dda }
    else f
  let f :=
    match creds.APIKey with
    | some apiKey =>
      let f :=
        { f with
          credentialsInfo.secretCreation.data :=
            mapSet f.credentialsInfo.secretCreation.data DefaultAPIKeyKey apiKey }
      let f := { f with credentialsInfo.apiKey.SecretName := f.credentialsInfo.secretCreation.name }
      { f with credentialsInfo.apiKey.SecretKey := DefaultAPIKeyKey }
    | none =>
      match creds.APISecret with
      | some apiSecret =>
        let f := { f with credentialsInfo.apiKey.SecretName := apiSecret.SecretName }
        { f with credentialsInfo.apiKey.SecretKey := apiSecret.KeyName }
      | none => f
  match creds.AppKey with
  | some appKey =>
    let f :=
      { f with
        credentialsInfo.secretCreation.data :=
          mapSet f.credentialsInfo.secretCreation.data DefaultAPPKeyKey appKey }
    let f := { f with credentialsInfo.appKey.SecretName := f.credentialsInfo.secretCreation.name }
    { f with credentialsInfo.appKey.SecretKey := DefaultAPPKeyKey }
  | none =>
    match creds.AppSecret with
    | some appSecret =>
      let f := { f with credentialsInfo.appKey.SecretName := appSecret.SecretName }
      { f with credentialsInfo.appKey.SecretKey := appSecret.KeyName }
    | none => f

/-- The block "DCA Token management" of `defaultFeature.Configure`, up to the
checksum annotation. `GenerateRandomString` is what
`apiutils.GenerateRandomString` returns in this call for a given length. -/
def configureClusterAgentToken (h : ConfigureHelpers) (GenerateRandomString : Nat → String)
    (f : defaultFeature) (dda : DatadogAgent) (globalConfig : GlobalConfig) : defaultFeature :=
  let f := { f with dcaTokenInfo.token.SecretName := h.GetDefaultDCATokenSecretName dda }
  let f := { f with dcaTokenInfo.token.SecretKey := DefaultTokenKey }
  let f :=
    match globalConfig.ClusterAgentToken with
    | some clusterAgentToken =>
      -- User specifies token
      let f := { f with dcaTokenInfo.secretCreation.createSecret := true }
      let f := { f with dcaTokenInfo.secretCreation.name := f.dcaTokenInfo.token.SecretName }
      { f with
        dcaTokenInfo.secretCreation.data :=
          mapSet f.dcaTokenInfo.secretCreation.data DefaultTokenKey clusterAgentToken }
    | none =>
      match globalConfig.ClusterAgentTokenSecret with
      | some clusterAgentTokenSecret =>
        -- User specifies token secret
        let f := { f with dcaTokenInfo.token.SecretName := clusterAgentTokenSecret.SecretName }
        { f with dcaTokenInfo.token.SecretKey := clusterAgentTokenSecret.KeyName }
      | none =>
        -- Token needs to be generated or read from status
        let f := { f with dcaTokenInfo.secretCreation.createSecret := true }
        let f := { f with dcaTokenInfo.secretCreation.name := f.dcaTokenInfo.token.SecretName }
        match dda.Status.ClusterAgent with
        | none =>
          { f with
            dcaTokenInfo.secretCreation.data :=
              mapSet f.dcaTokenInfo.secretCreation.data DefaultTokenKey
                (GenerateRandomString 32) }
        | some clusterAgentStatus =>
          if clusterAgentStatus.GeneratedToken = "" then
            { f with
              dcaTokenInfo.secretCreation.data :=
                mapSet f.dcaTokenInfo.secretCreation.data DefaultTokenKey
                  (GenerateRandomString 32) }
          else
            { f with
              dcaTokenInfo.secretCreation.data :=
                mapSet f.dcaTokenInfo.secretCreation.data DefaultTokenKey
                  clusterAgentStatus.GeneratedToken }
  let hash := h.GenerateMD5ForSpec f.dcaTokenInfo.secretCreation.data
  let f := { f with customConfigAnnotationValue := hash }
  { f with customConfigAnnotationKey := h.GetChecksumAnnotationKey DefaultIDType }

/-- Go method `defaultFeature.Configure`: the receiver after the call and the
required components. `GenerateRandomString` is what
`apiutils.GenerateRandomString` returns in this call for a given length: it
draws from a random source, so it is an argument of each call. -/
def Configure (h : ConfigureHelpers) (GenerateRandomString : Nat → String) (f : defaultFeature)
    (dda : DatadogAgent) : defaultFeature × RequiredComponents :=
  let trueValue := true
  let f := { f with owner := some dda }
  let f := { f with clusterAgent.serviceAccountName := h.GetClusterAgentServiceAccount dda }
  let f := { f with agent.serviceAccountName := h.GetAgentServiceAccount dda }
  let f :=
    { f with clusterChecksRunner.serviceAccountName := h.GetClusterChecksRunnerServiceAccount dda }
  let f :=
    match dda.Spec.Global with
    | some globalConfig =>
      let f :=
        if globalConfig.DisableNonResourceRules = some true then
          { f with disableNonResourceRules := true }
        else f
      let f :=
        match globalConfig.Credentials with
        | some creds => configureCredentials h f dda creds
        | none => f
      configureClusterAgentToken h GenerateRandomString f dda globalConfig
    | none => f
  -- In the meantime we add the OTel Agent as a required component here, if the flag is enabled.
  if f.otelAgentEnabled then
    (f, { ClusterAgent := { IsRequired := some trueValue }
          Agent := { IsRequired := some trueValue, Containers := [OtelAgent] } })
  else
    (f, { ClusterAgent := { IsRequired := some trueValue }
          Agent := { IsRequired := some trueValue } })

end enabledefault

/-! ## Package `merger/fake`: the fake security-context manager -/

/-- Kubernetes `v1.Capability`, a string. -/
abbrev Capability := String

namespace fake

/-- Go struct `fake.SecurityContextManager`, without the `testing.TB` field. The
map `CapabilitiesByC` is `none` when it is the nil map (the zero value of the
struct) and otherwise the function from a container name to its list. -/
structure SecurityContextManager where
  CapabilitiesByC : Option (AgentContainerName → List Capability)

/-- Go expression `_m.CapabilitiesByC[containerName]`: the list stored for a
container, empty for a container without entry and for the nil map. -/
def SecurityContextManager.capabilities (m : SecurityContextManager)
    (containerName : AgentContainerName) : List Capability :=
  match m.CapabilitiesByC with
  | some byC => byC containerName
  | none => []

/-- Go method `SecurityContextManager.AddCapabilitiesToContainer`: the manager
after the call. The result is `none` when the Go code panics: an assignment to
an entry of the nil map. -/
def AddCapabilitiesToContainer (m : SecurityContextManager) (capabilities : List Capability)
    (containerName : AgentContainerName) : Option SecurityContextManager :=
  match m.CapabilitiesByC with
  | some byC =>
    some { CapabilitiesByC := some (setAt byC containerName (byC containerName ++ capabilities)) }
  | none => none

/-- Go function `NewFakeSecurityContextManager`: the map is made, empty. -/
def NewFakeSecurityContextManager : SecurityContextManager :=
  { CapabilitiesByC := some (fun _ => []) }

end fake

/-! ## Values the statements below name -/

/-- Environment variable the live-container feature sets to tell where the
process checks run. -/
def runInCoreAgentEnvVar (runInCoreAgent : Bool) : EnvVar :=
  { Name := DDProcessConfigRunInCoreAgent, Value := BoolToString runInCoreAgent }

/-- Environment variable that switches container collection on. -/
def containerCollectionEnvVar : EnvVar :=
  { Name := DDContainerCollectionEnabled, Value := "true" }

/-- Read-only mount of the cgroups volume at the cgroups mount path. -/
def cgroupsVolumeMount : VolumeMount :=
  { Name := CgroupsVolumeName, MountPath := CgroupsMountPath, ReadOnly := true }

/-- Read-only mount of the procdir volume at the procdir mount path. -/
def procdirVolumeMount : VolumeMount :=
  { Name := ProcdirVolumeName, MountPath := ProcdirMountPath, ReadOnly := true }

/-- Host-path volume of the cgroups directory. -/
def cgroupsVolume : Volume :=
  { Name := CgroupsVolumeName, VolumeSource := { HostPath := some { Path := CgroupsHostPath } } }

/-- Host-path volume of the proc directory. -/
def procdirVolume : Volume :=
  { Name := ProcdirVolumeName, VolumeSource := { HostPath := some { Path := ProcdirHostPath } } }

/-- The zero value of `feature.RequiredComponents`, field by field. -/
def zeroRequiredComponents : RequiredComponents :=
  { ClusterAgent := { IsRequired := none, Containers := [] }
    Agent := { IsRequired := none, Containers := [] }
    ClusterChecksRunner := { IsRequired := none, Containers := [] } }

/-- A desired state with live container collection switched on. -/
def ddaLiveContainerEnabled : DatadogAgent :=
  { Namespace := "datadog", Name := "agent",
    Spec := { Features := { LiveContainerCollection := some { Enabled := some true } } } }

/-- A desired state without a live container collection section. -/
def ddaLiveContainerAbsent : DatadogAgent :=
  { Namespace := "datadog", Name := "agent",
    Spec := { Features := { LiveContainerCollection := none } } }

/-- A desired state whose live container collection section is present with
`Enabled` false. -/
def ddaLiveContainerDisabled : DatadogAgent :=
  { Namespace := "datadog", Name := "agent",
    Spec := { Features := { LiveContainerCollection := some { Enabled := some false } } } }

/-- A run-in-core-agent resolution that keeps the option value. -/
def keepOption : DatadogAgent → Bool → Bool := fun _ runInCoreAgent => runInCoreAgent

/-- The instance built with the option `ProcessChecksInCoreAgentEnabled`. -/
def liveContainerInCoreAgent : livecontainer.liveContainerFeature :=
  livecontainer.buildLiveContainerFeature (some { ProcessChecksInCoreAgentEnabled := true })

/-- The instance built without options. -/
def liveContainerDefault : livecontainer.liveContainerFeature :=
  livecontainer.buildLiveContainerFeature none

/-- Stand-ins for the library functions, to evaluate the features on concrete
inputs. -/
def sampleExternals : Externals :=
  { Dir := fun _ => "/var/run/datadog"
    Base := fun _ => "dsd.socket"
    Join := fun dir file => dir ++ "/" ++ file
    YAMLToJSONString := fun yaml => yaml }

/-- Whether `dogstatsdFeature.manageNodeAgent` reaches `Items[0]` on a mapper
profiles config map without items (config data being unset). -/
def dogstatsd.readsMissingItem (f : dogstatsd.dogstatsdFeature) : Bool :=
  match f.mapperProfiles with
  | some mapperProfiles =>
    match mapperProfiles.ConfigData, mapperProfiles.ConfigMap with
    | none, some configMap => configMap.Items.isEmpty
    | _, _ => false
  | none => false

/-- Field managers in which the core-agent container already has the dogstatsd
origin detection variable, set to "false" by an earlier contribution. -/
def originDetectionSetToFalse : FieldManagers :=
  (FieldManagers.AddEnvVarToContainer defaultMergePolicies CoreAgentContainerName
    { Name := DDDogstatsdOriginDetection, Value := "false" } FieldManagers.empty).1

/-- Field managers that reject every volume mount contributed with a merge
function and otherwise behave as the field managers of the spec. -/
def rejectingMergedMounts : PodTemplateManagers FieldManagers :=
  { fieldManagers defaultMergePolicies with
    AddVolumeMountToContainerWithMergeFunc := fun newMount _ _ s =>
      (s, some (Error.ConflictError newMount.Name)) }

/-- Stand-ins for the name and rule builders, to evaluate the default feature on
concrete inputs. -/
def sampleHelpers : enabledefault.Helpers :=
  { GetAgentRoleName := fun dda => dda.Name ++ "-agent"
    getDefaultAgentClusterRolePolicyRules := fun _ => []
    GetDefaultSeccompConfigMapName := fun dda => dda.Name ++ "-system-probe-seccomp"
    DefaultSeccompConfigDataForSystemProbe := []
    GetClusterAgentRbacResourcesName := fun dda => dda.Name ++ "-cluster-agent"
    getDefaultClusterAgentRolePolicyRules := fun _ => []
    getDefaultClusterAgentClusterRolePolicyRules := fun _ => []
    GetClusterAgentService := fun dda =>
      { Name := dda.Name ++ "-cluster-agent", Namespace := dda.Namespace }
    getCCRRbacResourcesName := fun dda => dda.Name ++ "-cluster-checks-runner"
    getDefaultClusterChecksRunnerClusterRolePolicyRules := fun _ _ => []
    GetInstallInfoConfigMapName := fun dda => dda.Name ++ "-install-info"
    Getenv := fun _ => ""
    Version := "1.0.0" }

/-- A configured default feature that creates the credentials secret with one
key and has service accounts for the node agent and the cluster agent. -/
def defaultFeatureWithCredentials : enabledefault.defaultFeature :=
  { owner := some { Namespace := "datadog", Name := "dda" }
    credentialsInfo :=
      { apiKey := { SecretName := "dda-secret", SecretKey := "api_key" }
        secretCreation :=
          { createSecret := true, name := "dda-secret", data := [("api_key", "0123")] } }
    agent := { serviceAccountName := "dda-agent" }
    clusterAgent := { serviceAccountName := "dda-cluster-agent" } }

/-- Required components with the node agent and the cluster agent required. -/
def nodeAndClusterAgentRequired : RequiredComponents :=
  { ClusterAgent := { IsRequired := some true }, Agent := { IsRequired := some true } }

/-- Outcomes of the resource managers in which every `AddSecret` fails and every
other operation succeeds. -/
def secretFails : ResourceCall → Option Error
  | ResourceCall.AddSecret _ _ _ _ => some (Error.DependencyError "secret rejected")
  | _ => none

/-- Outcomes of the resource managers in which every `AddSecret` fails and the
store rejects the install-info config map; every other operation succeeds. -/
def secretAndStoreFail : ResourceCall → Option Error
  | ResourceCall.AddSecret _ _ _ _ => some (Error.DependencyError "secret rejected")
  | ResourceCall.AddOrUpdate ObjectKind.ConfigMapKind _ =>
    some (Error.DependencyError "config map rejected")
  | _ => none

/-- The environment variables of the given name among the calls, oldest first,
each with the container it is for. -/
def envVarsNamed (name : String) (calls : List Contribution) :
    List (Option AgentContainerName × EnvVar) :=
  (calls.filterMap Contribution.envVar).filter (fun e => e.2.Name == name)

/-- The dogstatsd container port as the statements describe it: the host port
is set if the host port is enabled and non-zero, and the container port follows
it only on the host network. -/
def dogstatsd.expectedPort (f : dogstatsd.dogstatsdFeature) : ContainerPort :=
  { Name := DefaultDogstatsdPortName
    HostPort :=
      if f.hostPortEnabled = true ∧ f.hostPortHostPort ≠ 0 then f.hostPortHostPort else 0
    ContainerPort :=
      if f.hostPortEnabled = true ∧ f.hostPortHostPort ≠ 0 ∧ f.useHostNetwork = true then
        f.hostPortHostPort
      else DefaultDogstatsdPort
    Protocol := Protocol.ProtocolUDP }

/-- The mount of the dogstatsd socket volume. -/
def dogstatsdSocketVolumeMount : VolumeMount :=
  { Name := DogstatsdSocketVolumeName, MountPath := DogstatsdSocketLocalPath, ReadOnly := false }

/-- The host-path volume of the directory of the dogstatsd socket, created on
the host when missing. -/
def dogstatsdSocketVolume (x : Externals) (udsHostFilepath : String) : Volume :=
  { Name := DogstatsdSocketVolumeName
    VolumeSource :=
      { HostPath := some { Path := x.Dir udsHostFilepath
                           Type_ := some HostPathType.HostPathDirectoryOrCreate } } }

/-- The calls of `dogstatsdFeature.manageNodeAgent` as the statements describe
them, in order: the port variables, the port, the socket, origin detection, the
mapper profiles. To be compared with the calls of the embedded method. -/
def dogstatsd.expectedContributions (x : Externals) (f : dogstatsd.dogstatsdFeature)
    (c : AgentContainerName) : List Contribution :=
  (if f.hostPortEnabled then
    [Contribution.AddEnvVarToContainer c
       { Name := DDDogstatsdPort, Value := Itoa (dogstatsd.expectedPort f).ContainerPort },
     Contribution.AddEnvVarToContainer c { Name := DDDogstatsdNonLocalTraffic, Value := "true" }]
   else []) ++
  [Contribution.AddPortToContainer c (dogstatsd.expectedPort f)] ++
  (if f.udsEnabled then
    [Contribution.AddVolumeMountToContainerWithMergeFunc dogstatsdSocketVolumeMount c
       OverrideCurrentVolumeMountMergeFunction,
     Contribution.AddVolume (dogstatsdSocketVolume x f.udsHostFilepath),
     Contribution.AddEnvVar
       { Name := DDDogstatsdSocket
         Value := x.Join DogstatsdSocketLocalPath (x.Base f.udsHostFilepath) }]
   else []) ++
  (if f.originDetectionEnabled then
    [Contribution.AddEnvVarToContainer c { Name := DDDogstatsdOriginDetection, Value := "true" },
     Contribution.AddEnvVarToContainer c
       { Name := DDDogstatsdOriginDetectionClient, Value := "true" }] ++
    (if f.udsEnabled then [Contribution.SetHostPID true] else []) ++
    (if f.tagCardinality ≠ "" then
      [Contribution.AddEnvVarToContainer CoreAgentContainerName
         { Name := DDDogstatsdTagCardinality, Value := f.tagCardinality }]
     else [])
   else []) ++
  (match f.mapperProfiles with
   | none => []
   | some mapperProfiles =>
     match mapperProfiles.ConfigData with
     | some configData =>
       [Contribution.AddEnvVarToContainer CoreAgentContainerName
          { Name := DDDogstatsdMapperProfiles, Value := x.YAMLToJSONString configData }]
     | none =>
       match mapperProfiles.ConfigMap with
       | none => []
       | some configMap =>
         match configMap.Items with
         | [] => []
         | item :: _ =>
           [Contribution.AddEnvVarToContainer CoreAgentContainerName
              { Name := DDDogstatsdMapperProfiles
                ValueFrom :=
                  some { ConfigMapKeyRef := some { Name := configMap.Name, Key := item.Key } } }])

/-- A dogstatsd feature with origin detection on, a tag cardinality and mapper
profiles given as config data. -/
def dogstatsdWithCardinality : dogstatsd.dogstatsdFeature :=
  { originDetectionEnabled := true, tagCardinality := "high",
    mapperProfiles := some { ConfigData := some "profiles" } }

/-- A dogstatsd feature with the host port 8130 on the host network, the socket
and origin detection, configured from the owner `datadog/dda`. -/
def dogstatsdOnHostNetwork : dogstatsd.dogstatsdFeature :=
  { hostPortEnabled := true, hostPortHostPort := 8130, useHostNetwork := true,
    udsEnabled := true, udsHostFilepath := "/var/run/datadog/dsd.socket",
    originDetectionEnabled := true, tagCardinality := "low",
    mapperProfiles :=
      some { ConfigMap := some { Name := "profiles", Items := [{ Key := "mapper.yaml" }] } },
    forceEnableLocalService := true, localServiceName := "dda-agent",
    owner := some { Namespace := "datadog", Name := "dda" } }

/-- A dogstatsd feature whose mapper profiles have both config data and a
config map. -/
def dogstatsdWithBothProfiles : dogstatsd.dogstatsdFeature :=
  { mapperProfiles :=
      some { ConfigData := some "profiles",
             ConfigMap := some { Name := "profiles", Items := [{ Key := "mapper.yaml" }] } } }

/-- Stand-ins for the local service helpers: the service is created when it is
forced, and selected by the owner name. -/
def sampleLocalServiceHelpers : dogstatsd.LocalServiceHelpers :=
  { ShouldCreateAgentLocalService := fun _ forceEnableLocalService => forceEnableLocalService
    GetAgentLocalServiceSelector := fun dda => [("agent.datadoghq.com/name", dda.Name)] }

/-- Whether `defaultFeature.Configure` draws a random token for this desired
state: the global section is set, neither a token nor a token secret is given,
and the status holds no generated token. -/
def enabledefault.generatesToken (dda : DatadogAgent) : Bool :=
  match dda.Spec.Global with
  | none => false
  | some globalConfig =>
    globalConfig.ClusterAgentToken.isNone && globalConfig.ClusterAgentTokenSecret.isNone &&
      (match dda.Status.ClusterAgent with
       | none => true
       | some clusterAgentStatus => clusterAgentStatus.GeneratedToken == "")

/-- Stand-ins for the name builders and the hash, to evaluate
`defaultFeature.Configure` on concrete inputs. -/
def sampleConfigureHelpers : enabledefault.ConfigureHelpers :=
  { GetClusterAgentServiceAccount := fun dda => dda.Name ++ "-cluster-agent"
    GetAgentServiceAccount := fun dda => dda.Name ++ "-agent"
    GetClusterChecksRunnerServiceAccount := fun dda => dda.Name ++ "-cluster-checks-runner"
    GetDefaultCredentialsSecretName := fun dda => dda.Name
    GetDefaultDCATokenSecretName := fun dda => dda.Name ++ "-token"
    GenerateMD5ForSpec := fun data => String.join (data.map (fun kv => kv.1 ++ "=" ++ kv.2))
    GetChecksumAnnotationKey := fun id => "checksum/" ++ id ++ "-custom-config" }

/-- A random source that only draws the letter `a`. -/
def drawsA : Nat → String := fun n => String.mk (List.replicate n 'a')

/-- A random source that only draws the letter `b`. -/
def drawsB : Nat → String := fun n => String.mk (List.replicate n 'b')

/-- A desired state with an empty global section and no status. -/
def ddaWithoutToken : DatadogAgent :=
  { Namespace := "datadog", Name := "dda", Spec := { Global := some {} } }

/-- A desired state with an empty global section and a token in the status. -/
def ddaWithStoredToken : DatadogAgent :=
  { Namespace := "datadog", Name := "dda", Spec := { Global := some {} },
    Status := { ClusterAgent := some { GeneratedToken := "stored-token" } } }

/-- A desired state that gives both a token and a token secret. -/
def ddaWithTokenAndSecret : DatadogAgent :=
  { Namespace := "datadog", Name := "dda",
    Spec := { Global := some { ClusterAgentToken := some "user-token",
                               ClusterAgentTokenSecret :=
                                 some { SecretName := "user-secret", KeyName := "user-key" } } } }

/-- A fake security-context manager in which the system probe container already
has two capabilities. -/
def systemProbeCapabilities : fake.SecurityContextManager :=
  { CapabilitiesByC :=
      some (setAt (fun _ => []) SystemProbeContainerName ["SYS_ADMIN", "NET_ADMIN"]) }

/-! ## Theorems -/

section LiveContainer

open livecontainer

/-- C1: `liveContainerFeature.Configure`, for a desired state with the live
container collection section present and enabled and a resolved
run-in-core-agent flag that is false, returns required components whose node
agent is required with containers exactly core-agent then process-agent, the
cluster agent and the cluster checks runner being left at their zero value. -/
theorem liveContainer_Configure_requires_core_and_process
    (OverrideRunInCoreAgent : DatadogAgent → Bool → Bool) (f : liveContainerFeature)
    (dda : DatadogAgent) (liveContainerCollection : LiveContainerCollectionFeatureConfig)
    (hSection : dda.Spec.Features.LiveContainerCollection = some liveContainerCollection)
    (hEnabled : liveContainerCollection.Enabled = some true)
    (hFlag : OverrideRunInCoreAgent dda f.runInCoreAgent = false) :
    (Configure OverrideRunInCoreAgent f dda).2.Agent.IsRequired = some true ∧
    (Configure OverrideRunInCoreAgent f dda).2.Agent.Containers
      = [CoreAgentContainerName, ProcessAgentContainerName] ∧
    (Configure OverrideRunInCoreAgent f dda).2.ClusterAgent
      = { IsRequired := none, Containers := [] } ∧
    (Configure OverrideRunInCoreAgent f dda).2.ClusterChecksRunner
      = { IsRequired := none, Containers := [] } := by
  simp [Configure, hSection, hEnabled, hFlag, BoolValue, NewBoolPointer]

/-- Witness of C1: the enabled desired state, the instance built without
options and a resolution that keeps the option value. -/
theorem liveContainer_Configure_requires_core_and_process_witness :
    (Configure keepOption liveContainerDefault ddaLiveContainerEnabled).2.Agent.IsRequired
      = some true ∧
    (Configure keepOption liveContainerDefault ddaLiveContainerEnabled).2.Agent.Containers
      = [CoreAgentContainerName, ProcessAgentContainerName] ∧
    (Configure keepOption liveContainerDefault ddaLiveContainerEnabled).2.ClusterAgent
      = { IsRequired := none, Containers := [] } ∧
    (Configure keepOption liveContainerDefault ddaLiveContainerEnabled).2.ClusterChecksRunner
      = { IsRequired := none, Containers := [] } :=
  liveContainer_Configure_requires_core_and_process keepOption liveContainerDefault
    ddaLiveContainerEnabled { Enabled := some true } rfl rfl rfl

/-- C2: `liveContainerFeature.ManageNodeAgent` with `runInCoreAgent = false` on
fresh field managers (whatever their default merge policies) leaves the
process-agent container with exactly the env vars run-in-core-agent = "false"
then container-collection = "true", with exactly the read-only cgroups mount
then the read-only procdir mount, and returns no error. -/
theorem liveContainer_ManageNodeAgent_process_agent (p : MergePolicies)
    (f : liveContainerFeature) (provider : String) (hFlag : f.runInCoreAgent = false) :
    (ManageNodeAgent (fieldManagers p) f FieldManagers.empty provider).managers.EnvVarsByC
        ProcessAgentContainerName
      = [{ Name := DDProcessConfigRunInCoreAgent, Value := "false" },
         { Name := DDContainerCollectionEnabled, Value := "true" }] ∧
    (ManageNodeAgent (fieldManagers p) f FieldManagers.empty provider).managers.VolumeMountsByC
        ProcessAgentContainerName
      = [{ Name := CgroupsVolumeName, MountPath := CgroupsMountPath, ReadOnly := true },
         { Name := ProcdirVolumeName, MountPath := ProcdirMountPath, ReadOnly := true }] ∧
    (ManageNodeAgent (fieldManagers p) f FieldManagers.empty provider).err = none := by
  obtain ⟨runInCoreAgent⟩ := f
  subst hFlag
  exact ⟨rfl, rfl, rfl⟩

/-- Witness of C2: the instance built without options, on the field managers
with the default policies. -/
theorem liveContainer_ManageNodeAgent_process_agent_witness :
    (ManageNodeAgent (fieldManagers defaultMergePolicies) liveContainerDefault
        FieldManagers.empty "default").managers.EnvVarsByC ProcessAgentContainerName
      = [{ Name := DDProcessConfigRunInCoreAgent, Value := "false" },
         { Name := DDContainerCollectionEnabled, Value := "true" }] ∧
    (ManageNodeAgent (fieldManagers defaultMergePolicies) liveContainerDefault
        FieldManagers.empty "default").managers.VolumeMountsByC ProcessAgentContainerName
      = [{ Name := CgroupsVolumeName, MountPath := CgroupsMountPath, ReadOnly := true },
         { Name := ProcdirVolumeName, MountPath := ProcdirMountPath, ReadOnly := true }] ∧
    (ManageNodeAgent (fieldManagers defaultMergePolicies) liveContainerDefault
        FieldManagers.empty "default").err = none :=
  liveContainer_ManageNodeAgent_process_agent defaultMergePolicies liveContainerDefault
    "default" rfl

/-- C3: with live container collection enabled and a resolved
run-in-core-agent flag that is true, `Configure` requires the node agent with
containers exactly core-agent, and `ManageNodeAgent` of the configured instance
on fresh field managers leaves the core-agent container with exactly the env
vars run-in-core-agent = "true" then container-collection = "true" and exactly
the read-only cgroups and procdir mounts, the process-agent container
receiving no volume mount. -/
theorem liveContainer_core_agent_collection (p : MergePolicies)
    (OverrideRunInCoreAgent : DatadogAgent → Bool → Bool) (f : liveContainerFeature)
    (dda : DatadogAgent) (liveContainerCollection : LiveContainerCollectionFeatureConfig)
    (provider : String)
    (hSection : dda.Spec.Features.LiveContainerCollection = some liveContainerCollection)
    (hEnabled : liveContainerCollection.Enabled = some true)
    (hFlag : OverrideRunInCoreAgent dda f.runInCoreAgent = true) :
    (Configure OverrideRunInCoreAgent f dda).2.Agent.IsRequired = some true ∧
    (Configure OverrideRunInCoreAgent f dda).2.Agent.Containers = [CoreAgentContainerName] ∧
    (ManageNodeAgent (fieldManagers p) (Configure OverrideRunInCoreAgent f dda).1
        FieldManagers.empty provider).managers.EnvVarsByC CoreAgentContainerName
      = [{ Name := DDProcessConfigRunInCoreAgent, Value := "true" },
         { Name := DDContainerCollectionEnabled, Value := "true" }] ∧
    (ManageNodeAgent (fieldManagers p) (Configure OverrideRunInCoreAgent f dda).1
        FieldManagers.empty provider).managers.VolumeMountsByC CoreAgentContainerName
      = [{ Name := CgroupsVolumeName, MountPath := CgroupsMountPath, ReadOnly := true },
         { Name := ProcdirVolumeName, MountPath := ProcdirMountPath, ReadOnly := true }] ∧
    (ManageNodeAgent (fieldManagers p) (Configure OverrideRunInCoreAgent f dda).1
        FieldManagers.empty provider).managers.VolumeMountsByC ProcessAgentContainerName
      = [] := by
  have hConfigured : Configure OverrideRunInCoreAgent f dda
      = ({ runInCoreAgent := true },
         { Agent := { IsRequired := some true, Containers := [CoreAgentContainerName] } }) := by
    simp [Configure, hSection, hEnabled, hFlag, BoolValue, NewBoolPointer]
  rw [hConfigured]
  exact ⟨rfl, rfl, rfl, rfl, rfl⟩

/-- Witness of C3: the enabled desired state and the instance built with the
option `ProcessChecksInCoreAgentEnabled`, which the resolution keeps. -/
theorem liveContainer_core_agent_collection_witness :
    (Configure keepOption liveContainerInCoreAgent ddaLiveContainerEnabled).2.Agent.IsRequired
      = some true ∧
    (Configure keepOption liveContainerInCoreAgent ddaLiveContainerEnabled).2.Agent.Containers
      = [CoreAgentContainerName] ∧
    (ManageNodeAgent (fieldManagers defaultMergePolicies)
        (Configure keepOption liveContainerInCoreAgent ddaLiveContainerEnabled).1
        FieldManagers.empty "default").managers.EnvVarsByC CoreAgentContainerName
      = [{ Name := DDProcessConfigRunInCoreAgent, Value := "true" },
         { Name := DDContainerCollectionEnabled, Value := "true" }] ∧
    (ManageNodeAgent (fieldManagers defaultMergePolicies)
        (Configure keepOption liveContainerInCoreAgent ddaLiveContainerEnabled).1
        FieldManagers.empty "default").managers.VolumeMountsByC CoreAgentContainerName
      = [{ Name := CgroupsVolumeName, MountPath := CgroupsMountPath, ReadOnly := true },
         { Name := ProcdirVolumeName, MountPath := ProcdirMountPath, ReadOnly := true }] ∧
    (ManageNodeAgent (fieldManagers defaultMergePolicies)
        (Configure keepOption liveContainerInCoreAgent ddaLiveContainerEnabled).1
        FieldManagers.empty "default").managers.VolumeMountsByC ProcessAgentContainerName
      = [] :=
  liveContainer_core_agent_collection defaultMergePolicies keepOption liveContainerInCoreAgent
    ddaLiveContainerEnabled { Enabled := some true } "default" rfl rfl rfl

/-- What `ManageSingleContainerNodeAgent` leaves in fresh field managers, as
maps from container names. -/
theorem liveContainer_ManageSingleContainerNodeAgent_fresh (p : MergePolicies)
    (f : liveContainerFeature) (provider : String) :
    (ManageSingleContainerNodeAgent (fieldManagers p) f FieldManagers.empty
        provider).managers.EnvVarsByC
      = setAt (fun _ => []) UnprivilegedSingleAgentContainerName
          [runInCoreAgentEnvVar f.runInCoreAgent, containerCollectionEnvVar] ∧
    (ManageSingleContainerNodeAgent (fieldManagers p) f FieldManagers.empty
        provider).managers.VolumeMountsByC
      = setAt (fun _ => []) UnprivilegedSingleAgentContainerName
          [cgroupsVolumeMount, procdirVolumeMount] := by
  obtain ⟨runInCoreAgent⟩ := f
  cases runInCoreAgent <;>
    refine ⟨funext fun c => ?_, funext fun c => ?_⟩ <;>
    by_cases hc : c = UnprivilegedSingleAgentContainerName <;>
    simp [ManageSingleContainerNodeAgent, manageNodeAgent, fieldManagers,
      FieldManagers.AddEnvVarToContainer, FieldManagers.AddVolumeMountToContainer,
      FieldManagers.AddVolumeMountToContainerWithMergeFunc, FieldManagers.AddVolume,
      FieldManagers.empty, addWithMergeFunc, setAt, GetVolumes, hc,
      runInCoreAgentEnvVar, containerCollectionEnvVar, cgroupsVolumeMount, procdirVolumeMount,
      BoolToString, DDProcessConfigRunInCoreAgent, DDContainerCollectionEnabled,
      CgroupsVolumeName, ProcdirVolumeName]

/-- C4: `liveContainerFeature.ManageSingleContainerNodeAgent`, for every feature
state, on fresh field managers leaves the unprivileged single agent container
with exactly the env vars run-in-core-agent = `BoolToString runInCoreAgent`
then container-collection = "true" and exactly the read-only cgroups and
procdir mounts in that order, and no other container receives an env var or a
volume mount. -/
theorem liveContainer_ManageSingleContainerNodeAgent_single_container (p : MergePolicies)
    (f : liveContainerFeature) (provider : String) :
    (ManageSingleContainerNodeAgent (fieldManagers p) f FieldManagers.empty
        provider).managers.EnvVarsByC UnprivilegedSingleAgentContainerName
      = [{ Name := DDProcessConfigRunInCoreAgent, Value := BoolToString f.runInCoreAgent },
         { Name := DDContainerCollectionEnabled, Value := "true" }] ∧
    (ManageSingleContainerNodeAgent (fieldManagers p) f FieldManagers.empty
        provider).managers.VolumeMountsByC UnprivilegedSingleAgentContainerName
      = [{ Name := CgroupsVolumeName, MountPath := CgroupsMountPath, ReadOnly := true },
         { Name := ProcdirVolumeName, MountPath := ProcdirMountPath, ReadOnly := true }] ∧
    (∀ c : AgentContainerName, c ≠ UnprivilegedSingleAgentContainerName →
      (ManageSingleContainerNodeAgent (fieldManagers p) f FieldManagers.empty
          provider).managers.EnvVarsByC c = [] ∧
      (ManageSingleContainerNodeAgent (fieldManagers p) f FieldManagers.empty
          provider).managers.VolumeMountsByC c = []) := by
  obtain ⟨hEnv, hMounts⟩ := liveContainer_ManageSingleContainerNodeAgent_fresh p f provider
  rw [hEnv, hMounts]
  refine ⟨by simp [setAt, runInCoreAgentEnvVar, containerCollectionEnvVar],
    by simp [setAt, cgroupsVolumeMount, procdirVolumeMount], fun c hc => ?_⟩
  simp [setAt, hc]

/-- C5: for every feature state, `ManageNodeAgent` and
`ManageSingleContainerNodeAgent` on fresh field managers both leave the
pod-level volume list as exactly the cgroups host-path volume then the procdir
host-path volume: the list does not depend on the container that was
targeted. -/
theorem liveContainer_pod_volumes (p : MergePolicies) (f : liveContainerFeature)
    (provider : String) :
    (ManageNodeAgent (fieldManagers p) f FieldManagers.empty provider).managers.Volumes
      = [{ Name := CgroupsVolumeName,
           VolumeSource := { HostPath := some { Path := CgroupsHostPath } } },
         { Name := ProcdirVolumeName,
           VolumeSource := { HostPath := some { Path := ProcdirHostPath } } }] ∧
    (ManageSingleContainerNodeAgent (fieldManagers p) f FieldManagers.empty
        provider).managers.Volumes
      = [{ Name := CgroupsVolumeName,
           VolumeSource := { HostPath := some { Path := CgroupsHostPath } } },
         { Name := ProcdirVolumeName,
           VolumeSource := { HostPath := some { Path := ProcdirHostPath } } }] := by
  obtain ⟨runInCoreAgent⟩ := f
  cases runInCoreAgent <;> exact ⟨rfl, rfl⟩

/-- C6: `liveContainerFeature.Configure`, for a desired state whose live
container collection section is nil or whose `Enabled` pointer is nil or false,
returns the zero-value required components (no component required, no
container listed) and leaves the instance, its `runInCoreAgent` field
included, as it was. -/
theorem liveContainer_Configure_not_applicable
    (OverrideRunInCoreAgent : DatadogAgent → Bool → Bool) (f : liveContainerFeature)
    (dda : DatadogAgent)
    (hOff : dda.Spec.Features.LiveContainerCollection = none ∨
      ∃ liveContainerCollection : LiveContainerCollectionFeatureConfig,
        dda.Spec.Features.LiveContainerCollection = some liveContainerCollection ∧
        (liveContainerCollection.Enabled = none ∨ liveContainerCollection.Enabled = some false)) :
    (Configure OverrideRunInCoreAgent f dda).2 = zeroRequiredComponents ∧
    (Configure OverrideRunInCoreAgent f dda).1.runInCoreAgent = f.runInCoreAgent ∧
    (Configure OverrideRunInCoreAgent f dda).1 = f := by
  rcases hOff with hNone | ⟨liveContainerCollection, hSome, hNil | hFalse⟩
  · simp [Configure, hNone, zeroRequiredComponents]
  · simp [Configure, hSome, hNil, BoolValue, zeroRequiredComponents]
  · simp [Configure, hSome, hFalse, BoolValue, zeroRequiredComponents]

/-- Witness of C6: the desired state whose section is present with `Enabled`
false, the instance built with the core-agent option, and a resolution that
would switch the flag off. -/
theorem liveContainer_Configure_not_applicable_witness :
    (Configure (fun _ _ => false) liveContainerInCoreAgent ddaLiveContainerDisabled).2
      = zeroRequiredComponents ∧
    (Configure (fun _ _ => false) liveContainerInCoreAgent
      ddaLiveContainerDisabled).1.runInCoreAgent = liveContainerInCoreAgent.runInCoreAgent ∧
    (Configure (fun _ _ => false) liveContainerInCoreAgent ddaLiveContainerDisabled).1
      = liveContainerInCoreAgent :=
  liveContainer_Configure_not_applicable (fun _ _ => false) liveContainerInCoreAgent
    ddaLiveContainerDisabled (Or.inr ⟨{ Enabled := some false }, rfl, Or.inr rfl⟩)

/-- C7, as the code has it: for an instance whose `Configure` returned the
zero-value required components (section absent or disabled), `ManageNodeAgent`
and `ManageSingleContainerNodeAgent` return no error, whatever the managers,
but are not no-ops: on fresh field managers the target container
(process-agent or core-agent by `runInCoreAgent`, the unprivileged single agent
container for the single-container method) ends with the run-in-core-agent and
container-collection env vars and the read-only cgroups and procdir mounts, and
the pod with the cgroups and procdir volumes. -/
theorem liveContainer_Manage_after_not_applicable (p : MergePolicies) {σ : Type}
    (m : PodTemplateManagers σ) (OverrideRunInCoreAgent : DatadogAgent → Bool → Bool)
    (f : liveContainerFeature) (dda : DatadogAgent) (managers : σ) (provider : String)
    (hOff : dda.Spec.Features.LiveContainerCollection = none ∨
      ∃ liveContainerCollection : LiveContainerCollectionFeatureConfig,
        dda.Spec.Features.LiveContainerCollection = some liveContainerCollection ∧
        (liveContainerCollection.Enabled = none ∨ liveContainerCollection.Enabled = some false)) :
    (Configure OverrideRunInCoreAgent f dda).2 = zeroRequiredComponents ∧
    (ManageNodeAgent m (Configure OverrideRunInCoreAgent f dda).1 managers provider).err
      = none ∧
    (ManageSingleContainerNodeAgent m (Configure OverrideRunInCoreAgent f dda).1 managers
      provider).err = none ∧
    (ManageNodeAgent (fieldManagers p) (Configure OverrideRunInCoreAgent f dda).1
        FieldManagers.empty provider).managers.EnvVarsByC
        (if f.runInCoreAgent then CoreAgentContainerName else ProcessAgentContainerName)
      = [runInCoreAgentEnvVar f.runInCoreAgent, containerCollectionEnvVar] ∧
    (ManageNodeAgent (fieldManagers p) (Configure OverrideRunInCoreAgent f dda).1
        FieldManagers.empty provider).managers.VolumeMountsByC
        (if f.runInCoreAgent then CoreAgentContainerName else ProcessAgentContainerName)
      = [cgroupsVolumeMount, procdirVolumeMount] ∧
    (ManageNodeAgent (fieldManagers p) (Configure OverrideRunInCoreAgent f dda).1
        FieldManagers.empty provider).managers.Volumes = [cgroupsVolume, procdirVolume] ∧
    (ManageSingleContainerNodeAgent (fieldManagers p) (Configure OverrideRunInCoreAgent f dda).1
        FieldManagers.empty provider).managers.EnvVarsByC UnprivilegedSingleAgentContainerName
      = [runInCoreAgentEnvVar f.runInCoreAgent, containerCollectionEnvVar] ∧
    (ManageSingleContainerNodeAgent (fieldManagers p) (Configure OverrideRunInCoreAgent f dda).1
        FieldManagers.empty provider).managers.VolumeMountsByC
        UnprivilegedSingleAgentContainerName
      = [cgroupsVolumeMount, procdirVolumeMount] ∧
    (ManageSingleContainerNodeAgent (fieldManagers p) (Configure OverrideRunInCoreAgent f dda).1
        FieldManagers.empty provider).managers.Volumes = [cgroupsVolume, procdirVolume] := by
  have hConfigured : Configure OverrideRunInCoreAgent f dda = (f, zeroRequiredComponents) := by
    rcases hOff with hNone | ⟨liveContainerCollection, hSome, hNil | hFalse⟩
    · simp [Configure, hNone, zeroRequiredComponents]
    · simp [Configure, hSome, hNil, BoolValue, zeroRequiredComponents]
    · simp [Configure, hSome, hFalse, BoolValue, zeroRequiredComponents]
  rw [hConfigured]
  obtain ⟨runInCoreAgent⟩ := f
  cases runInCoreAgent <;> exact ⟨rfl, rfl, rfl, rfl, rfl, rfl, rfl, rfl, rfl⟩

/-- Witness of the amended C7: the desired state without the section and the
instance built without options, on fresh field managers with the default
policies. -/
theorem liveContainer_Manage_after_not_applicable_witness :
    ddaLiveContainerAbsent.Spec.Features.LiveContainerCollection = none ∧
    (Configure keepOption liveContainerDefault ddaLiveContainerAbsent).2
      = zeroRequiredComponents ∧
    (ManageNodeAgent (fieldManagers defaultMergePolicies)
      (Configure keepOption liveContainerDefault ddaLiveContainerAbsent).1
      FieldManagers.empty "default").err = none ∧
    (ManageSingleContainerNodeAgent (fieldManagers defaultMergePolicies)
      (Configure keepOption liveContainerDefault ddaLiveContainerAbsent).1
      FieldManagers.empty "default").err = none ∧
    (ManageNodeAgent (fieldManagers defaultMergePolicies)
        (Configure keepOption liveContainerDefault ddaLiveContainerAbsent).1
        FieldManagers.empty "default").managers.EnvVarsByC ProcessAgentContainerName
      = [runInCoreAgentEnvVar false, containerCollectionEnvVar] ∧
    (ManageNodeAgent (fieldManagers defaultMergePolicies)
        (Configure keepOption liveContainerDefault ddaLiveContainerAbsent).1
        FieldManagers.empty "default").managers.VolumeMountsByC ProcessAgentContainerName
      = [cgroupsVolumeMount, procdirVolumeMount] ∧
    (ManageNodeAgent (fieldManagers defaultMergePolicies)
        (Configure keepOption liveContainerDefault ddaLiveContainerAbsent).1
        FieldManagers.empty "default").managers.Volumes = [cgroupsVolume, procdirVolume] ∧
    (ManageSingleContainerNodeAgent (fieldManagers defaultMergePolicies)
        (Configure keepOption liveContainerDefault ddaLiveContainerAbsent).1
        FieldManagers.empty "default").managers.EnvVarsByC UnprivilegedSingleAgentContainerName
      = [runInCoreAgentEnvVar false, containerCollectionEnvVar] ∧
    (ManageSingleContainerNodeAgent (fieldManagers defaultMergePolicies)
        (Configure keepOption liveContainerDefault ddaLiveContainerAbsent).1
        FieldManagers.empty "default").managers.VolumeMountsByC
        UnprivilegedSingleAgentContainerName
      = [cgroupsVolumeMount, procdirVolumeMount] ∧
    (ManageSingleContainerNodeAgent (fieldManagers defaultMergePolicies)
        (Configure keepOption liveContainerDefault ddaLiveContainerAbsent).1
        FieldManagers.empty "default").managers.Volumes = [cgroupsVolume, procdirVolume] :=
  ⟨rfl, liveContainer_Manage_after_not_applicable defaultMergePolicies
    (fieldManagers defaultMergePolicies) keepOption liveContainerDefault ddaLiveContainerAbsent
    FieldManagers.empty "default" (Or.inl rfl)⟩

/-- Counterexample to C7 as stated: for the desired state without a live
container collection section `Configure` returns the zero-value required
components, and yet `ManageNodeAgent` and `ManageSingleContainerNodeAgent` of
that instance change fresh field managers: env vars, volume mounts and volumes
are added. -/
theorem liveContainer_Manage_after_not_applicable_counterexample :
    (Configure keepOption liveContainerDefault ddaLiveContainerAbsent).2
      = zeroRequiredComponents ∧
    (ManageNodeAgent (fieldManagers defaultMergePolicies)
        (Configure keepOption liveContainerDefault ddaLiveContainerAbsent).1
        FieldManagers.empty "default").managers.EnvVarsByC ProcessAgentContainerName
      ≠ FieldManagers.empty.EnvVarsByC ProcessAgentContainerName ∧
    (ManageNodeAgent (fieldManagers defaultMergePolicies)
        (Configure keepOption liveContainerDefault ddaLiveContainerAbsent).1
        FieldManagers.empty "default").managers.VolumeMountsByC ProcessAgentContainerName
      ≠ FieldManagers.empty.VolumeMountsByC ProcessAgentContainerName ∧
    (ManageNodeAgent (fieldManagers defaultMergePolicies)
        (Configure keepOption liveContainerDefault ddaLiveContainerAbsent).1
        FieldManagers.empty "default").managers.Volumes ≠ FieldManagers.empty.Volumes ∧
    (ManageSingleContainerNodeAgent (fieldManagers defaultMergePolicies)
        (Configure keepOption liveContainerDefault ddaLiveContainerAbsent).1
        FieldManagers.empty "default").managers.EnvVarsByC UnprivilegedSingleAgentContainerName
      ≠ FieldManagers.empty.EnvVarsByC UnprivilegedSingleAgentContainerName ∧
    (ManageSingleContainerNodeAgent (fieldManagers defaultMergePolicies)
        (Configure keepOption liveContainerDefault ddaLiveContainerAbsent).1
        FieldManagers.empty "default").managers.Volumes ≠ FieldManagers.empty.Volumes := by
  decide

end LiveContainer

section NoOps

/-- C8: for every feature state and every state of any managers,
`liveContainerFeature.ManageClusterAgent`, `ManageClusterChecksRunner` and
`ManageDependencies` and `dogstatsdFeature.ManageClusterAgent` and
`ManageClusterChecksRunner` return nil and leave the managers and the feature
instance as they were. -/
theorem untouched_components_are_noops {σ ρ : Type} (m : PodTemplateManagers σ)
    (liveContainerFeat : livecontainer.liveContainerFeature)
    (dogstatsdFeat : dogstatsd.dogstatsdFeature) (managers : σ) (resources : ρ)
    (components : RequiredComponents) :
    livecontainer.ManageClusterAgent m liveContainerFeat managers
      = { receiver := liveContainerFeat, managers := managers, err := none } ∧
    livecontainer.ManageClusterChecksRunner m liveContainerFeat managers
      = { receiver := liveContainerFeat, managers := managers, err := none } ∧
    livecontainer.ManageDependencies liveContainerFeat resources components
      = { receiver := liveContainerFeat, managers := resources, err := none } ∧
    dogstatsd.ManageClusterAgent m dogstatsdFeat managers
      = { receiver := dogstatsdFeat, managers := managers, err := none } ∧
    dogstatsd.ManageClusterChecksRunner m dogstatsdFeat managers
      = { receiver := dogstatsdFeat, managers := managers, err := none } :=
  ⟨rfl, rfl, rfl, rfl, rfl⟩

end NoOps

section Errors

open enabledefault

/-- C9, what the code does at the failing input: with a credentials secret
whose `AddSecret` fails and a store that rejects the install-info config map,
`defaultFeature.ManageDependencies` returns the store error alone (the secret
error it had collected is not in it) and attempts neither the node agent nor
the cluster agent dependencies, both components being required: the two calls
listed are all it makes. When only `AddSecret` fails, the same call collects
the secret error into the aggregate and goes on to the six later steps. -/
theorem defaultFeature_ManageDependencies_store_error_short_circuits :
    (∃ r, ManageDependencies sampleHelpers (recordingManagers secretAndStoreFail)
        defaultFeatureWithCredentials [] nodeAndClusterAgentRequired = some r ∧
      r.err = some (Error.DependencyError "config map rejected") ∧
      secretAndStoreFail (ResourceCall.AddSecret "datadog" "dda-secret" "api_key" "0123")
        = some (Error.DependencyError "secret rejected") ∧
      r.managers =
        [ResourceCall.AddSecret "datadog" "dda-secret" "api_key" "0123",
         ResourceCall.AddOrUpdate ObjectKind.ConfigMapKind
           (StoreObject.configMap
             (buildInstallInfoConfigMap sampleHelpers
               { Namespace := "datadog", Name := "dda" }))]) ∧
    (∃ r, ManageDependencies sampleHelpers (recordingManagers secretFails)
        defaultFeatureWithCredentials [] nodeAndClusterAgentRequired = some r ∧
      r.err = some (Error.Aggregate [Error.DependencyError "secret rejected"]) ∧
      r.managers =
        [ResourceCall.AddSecret "datadog" "dda-secret" "api_key" "0123",
         ResourceCall.AddOrUpdate ObjectKind.ConfigMapKind
           (StoreObject.configMap
             (buildInstallInfoConfigMap sampleHelpers
               { Namespace := "datadog", Name := "dda" })),
         ResourceCall.AddServiceAccountByComponent "datadog" "dda-agent" NodeAgentComponentName,
         ResourceCall.AddClusterPolicyRules "datadog" "dda-agent" "dda-agent" [],
         ResourceCall.AddServiceAccountByComponent "datadog" "dda-cluster-agent"
           ClusterAgentComponentName,
         ResourceCall.AddPolicyRulesByComponent "datadog" "dda-cluster-agent"
           "dda-cluster-agent" [] ClusterAgentComponentName,
         ResourceCall.AddClusterPolicyRulesByComponent "datadog" "dda-cluster-agent"
           "dda-cluster-agent" [] ClusterAgentComponentName,
         ResourceCall.AddOrUpdate ObjectKind.ServicesKind
           (StoreObject.service { Name := "dda-cluster-agent", Namespace := "datadog" })]) :=
  ⟨⟨_, rfl, rfl, rfl, rfl⟩, ⟨_, rfl, rfl, rfl⟩⟩

/-- C10, as the code has it: for every dogstatsd feature state and every
implementation and state of the pod-template managers, `ManageNodeAgent` and
`ManageSingleContainerNodeAgent` return nil (they return unless the mapper
profiles config map that is read has no item): what the managers answered is
dropped, so a rejected contribution is not reported. -/
theorem dogstatsd_Manage_returns_nil {σ : Type} (x : Externals) (m : PodTemplateManagers σ)
    (f : dogstatsd.dogstatsdFeature) (managers : σ) (provider : String)
    (hItems : dogstatsd.readsMissingItem f = false) :
    (∃ r, dogstatsd.ManageNodeAgent x m f managers provider = some r ∧ r.err = none) ∧
    (∃ r, dogstatsd.ManageSingleContainerNodeAgent x m f managers provider = some r ∧
      r.err = none) := by
  unfold dogstatsd.ManageNodeAgent dogstatsd.ManageSingleContainerNodeAgent
    dogstatsd.manageNodeAgent
  unfold dogstatsd.readsMissingItem at hItems
  cases hmp : f.mapperProfiles with
  | none => simp
  | some mapperProfiles =>
    rw [hmp] at hItems
    cases hcd : mapperProfiles.ConfigData with
    | some configData => simp [hcd]
    | none =>
      cases hcm : mapperProfiles.ConfigMap with
      | none => simp [hcd, hcm]
      | some configMap =>
        cases hit : configMap.Items with
        | nil => simp [hcd, hcm, hit] at hItems
        | cons item rest => simp [hcd, hcm, hit]

/-- Witness of the amended C10: a feature with the socket and origin detection
on, on managers that reject the socket mount. -/
theorem dogstatsd_Manage_returns_nil_witness :
    dogstatsd.readsMissingItem { udsEnabled := true, originDetectionEnabled := true } = false ∧
    (∃ r, dogstatsd.ManageNodeAgent sampleExternals rejectingMergedMounts
        { udsEnabled := true, originDetectionEnabled := true } FieldManagers.empty "default"
        = some r ∧ r.err = none) ∧
    (∃ r, dogstatsd.ManageSingleContainerNodeAgent sampleExternals rejectingMergedMounts
        { udsEnabled := true, originDetectionEnabled := true } FieldManagers.empty "default"
        = some r ∧ r.err = none) :=
  ⟨rfl, dogstatsd_Manage_returns_nil sampleExternals rejectingMergedMounts
    { udsEnabled := true, originDetectionEnabled := true } FieldManagers.empty "default" rfl⟩

/-- Counterexample to C10 as stated: a contribution is rejected and the method
returns nil. First, on the field managers with the default policies where
core-agent already has the origin detection variable set to "false",
`ManageNodeAgent` of a feature with origin detection on gets a conflict error
for that variable, the earlier value stays, and nil is returned. Second, on
managers that reject the dogstatsd socket mount,
`ManageSingleContainerNodeAgent` of a feature with the socket on gets that
error from `AddVolumeMountToContainerWithMergeFunc` and returns nil. -/
theorem dogstatsd_rejected_contribution_unreported_counterexample :
    (∃ r, dogstatsd.ManageNodeAgent sampleExternals
        (recordingErrors (fieldManagers defaultMergePolicies))
        { originDetectionEnabled := true } (originDetectionSetToFalse, []) "default" = some r ∧
      r.managers.2 = [Error.ConflictError DDDogstatsdOriginDetection] ∧
      r.managers.1.EnvVarsByC CoreAgentContainerName
        = [{ Name := DDDogstatsdOriginDetection, Value := "false" },
           { Name := DDDogstatsdOriginDetectionClient, Value := "true" }] ∧
      r.err = none) ∧
    (∃ r, dogstatsd.ManageSingleContainerNodeAgent sampleExternals
        (recordingErrors rejectingMergedMounts)
        { udsEnabled := true, udsHostFilepath := "/var/run/datadog/dsd.socket" }
        (FieldManagers.empty, []) "default" = some r ∧
      r.managers.2 = [Error.ConflictError DogstatsdSocketVolumeName] ∧
      r.managers.1.VolumeMountsByC UnprivilegedSingleAgentContainerName = [] ∧
      r.err = none) :=
  ⟨⟨_, rfl, rfl, rfl, rfl⟩, ⟨_, rfl, rfl, rfl, rfl⟩⟩

end Errors

section Dogstatsd

open dogstatsd

/-- The calls of `dogstatsdFeature.manageNodeAgent` are the expected ones, in
order, whenever the method returns. -/
theorem dogstatsd_manageNodeAgent_contributions (x : Externals) (f : dogstatsdFeature)
    (c : AgentContainerName) (calls : List Contribution) (provider : String)
    (hItems : readsMissingItem f = false) :
    manageNodeAgent x recordingContributions f c calls provider
      = some { receiver := f, managers := calls ++ expectedContributions x f c, err := none } := by
  unfold manageNodeAgent expectedContributions expectedPort
  unfold readsMissingItem at hItems
  simp only [recordingContributions, dogstatsdSocketVolumeMount, dogstatsdSocketVolume]
  cases hmp : f.mapperProfiles with
  | none =>
    by_cases h1 : f.hostPortEnabled = true <;> by_cases h4 : f.udsEnabled = true <;>
      by_cases h5 : f.originDetectionEnabled = true <;>
      simp [h1, h4, h5, GetVolumes] <;> split_ifs <;> simp_all
  | some mapperProfiles =>
    rw [hmp] at hItems
    cases hcd : mapperProfiles.ConfigData with
    | some configData =>
      by_cases h1 : f.hostPortEnabled = true <;> by_cases h4 : f.udsEnabled = true <;>
        by_cases h5 : f.originDetectionEnabled = true <;>
        simp [h1, h4, h5, GetVolumes, hcd] <;> split_ifs <;> simp_all
    | none =>
      cases hcm : mapperProfiles.ConfigMap with
      | none =>
        by_cases h1 : f.hostPortEnabled = true <;> by_cases h4 : f.udsEnabled = true <;>
          by_cases h5 : f.originDetectionEnabled = true <;>
          simp [h1, h4, h5, GetVolumes, hcd, hcm] <;> split_ifs <;> simp_all
      | some configMap =>
        cases hit : configMap.Items with
        | nil => simp [hcd, hcm, hit] at hItems
        | cons item rest =>
          by_cases h1 : f.hostPortEnabled = true <;> by_cases h4 : f.udsEnabled = true <;>
            by_cases h5 : f.originDetectionEnabled = true <;>
            simp [h1, h4, h5, GetVolumes, hcd, hcm, hit] <;> split_ifs <;> simp_all

/-- The calls of `manageNodeAgent` on a fresh record. -/
theorem dogstatsd_manageNodeAgent_record (x : Externals) (f : dogstatsdFeature)
    (c : AgentContainerName) (provider : String) (hItems : readsMissingItem f = false) :
    manageNodeAgent x recordingContributions f c [] provider
      = some { receiver := f, managers := expectedContributions x f c, err := none } := by
  rw [dogstatsd_manageNodeAgent_contributions x f c [] provider hItems]
  simp

/-- The port calls among the expected calls. -/
theorem dogstatsd_expectedContributions_ports (x : Externals) (f : dogstatsdFeature)
    (c : AgentContainerName) :
    (expectedContributions x f c).filterMap Contribution.port = [(c, expectedPort f)] := by
  simp only [expectedContributions]
  rcases hmp : f.mapperProfiles with
      _ | ⟨⟨_ | configData, _ | ⟨_, _ | ⟨item, rest⟩⟩⟩⟩ <;>
    simp [List.filterMap_append, apply_ite (List.filterMap Contribution.port),
      Contribution.port]

/-- The volume and mount calls among the expected calls. -/
theorem dogstatsd_expectedContributions_volumes (x : Externals) (f : dogstatsdFeature)
    (c : AgentContainerName) :
    (expectedContributions x f c).filter Contribution.isVolumeOrMount
      = if f.udsEnabled then
          [Contribution.AddVolumeMountToContainerWithMergeFunc dogstatsdSocketVolumeMount c
             OverrideCurrentVolumeMountMergeFunction,
           Contribution.AddVolume (dogstatsdSocketVolume x f.udsHostFilepath)]
        else [] := by
  simp only [expectedContributions]
  rcases hmp : f.mapperProfiles with
      _ | ⟨⟨_ | configData, _ | ⟨_, _ | ⟨item, rest⟩⟩⟩⟩ <;>
    simp [List.filter_append, apply_ite (List.filter Contribution.isVolumeOrMount),
      Contribution.isVolumeOrMount]

/-- The environment variables among the expected calls, each with the
container it is for. -/
theorem dogstatsd_expectedContributions_envVars (x : Externals) (f : dogstatsdFeature)
    (c : AgentContainerName) :
    (expectedContributions x f c).filterMap Contribution.envVar
      = (if f.hostPortEnabled then
          [(some c, { Name := DDDogstatsdPort, Value := Itoa (expectedPort f).ContainerPort }),
           (some c, { Name := DDDogstatsdNonLocalTraffic, Value := "true" })]
         else []) ++
        (if f.udsEnabled then
          [(none, { Name := DDDogstatsdSocket
                    Value := x.Join DogstatsdSocketLocalPath (x.Base f.udsHostFilepath) })]
         else []) ++
        (if f.originDetectionEnabled then
          [(some c, { Name := DDDogstatsdOriginDetection, Value := "true" }),
           (some c, { Name := DDDogstatsdOriginDetectionClient, Value := "true" })] ++
          (if f.tagCardinality ≠ "" then
            [(some CoreAgentContainerName,
              { Name := DDDogstatsdTagCardinality, Value := f.tagCardinality })]
           else [])
         else []) ++
        (match f.mapperProfiles with
         | none => []
         | some mapperProfiles =>
           match mapperProfiles.ConfigData with
           | some configData =>
             [(some CoreAgentContainerName,
               { Name := DDDogstatsdMapperProfiles, Value := x.YAMLToJSONString configData })]
           | none =>
             match mapperProfiles.ConfigMap with
             | none => []
             | some configMap =>
               match configMap.Items with
               | [] => []
               | item :: _ =>
                 [(some CoreAgentContainerName,
                   { Name := DDDogstatsdMapperProfiles
                     ValueFrom :=
                       some { ConfigMapKeyRef :=
                                some { Name := configMap.Name, Key := item.Key } } })]) := by
  simp only [expectedContributions]
  rcases hmp : f.mapperProfiles with
      _ | ⟨⟨_ | configData, _ | ⟨_, _ | ⟨item, rest⟩⟩⟩⟩ <;>
    simp [List.filterMap_append, apply_ite (List.filterMap Contribution.envVar),
      Contribution.envVar]

/-- C14: whenever `dogstatsdFeature.manageNodeAgent` returns, with the socket
enabled its volume and mount calls are exactly the dogstatsd socket mount on
the target container, passed with the override-current merge function, and the
host-path volume of the directory part of `udsHostFilepath` with type
`DirectoryOrCreate`, and it adds the env var `DDDogstatsdSocket` with value
`Join DogstatsdSocketLocalPath (Base udsHostFilepath)`; with the socket
disabled it makes no volume or mount call and adds no such env var. -/
theorem dogstatsd_manageNodeAgent_socket (x : Externals) (f : dogstatsdFeature)
    (c : AgentContainerName) (provider : String) (hItems : readsMissingItem f = false) :
    ∃ r, manageNodeAgent x recordingContributions f c [] provider = some r ∧
      (f.udsEnabled = true →
        r.managers.filter Contribution.isVolumeOrMount
          = [Contribution.AddVolumeMountToContainerWithMergeFunc
               { Name := DogstatsdSocketVolumeName, MountPath := DogstatsdSocketLocalPath,
                 ReadOnly := false } c OverrideCurrentVolumeMountMergeFunction,
             Contribution.AddVolume
               { Name := DogstatsdSocketVolumeName
                 VolumeSource :=
                   { HostPath :=
                       some { Path := x.Dir f.udsHostFilepath
                              Type_ := some HostPathType.HostPathDirectoryOrCreate } } }] ∧
        envVarsNamed DDDogstatsdSocket r.managers
          = [(none, { Name := DDDogstatsdSocket
                      Value := x.Join DogstatsdSocketLocalPath (x.Base f.udsHostFilepath) })]) ∧
      (f.udsEnabled = false →
        r.managers.filter Contribution.isVolumeOrMount = [] ∧
        envVarsNamed DDDogstatsdSocket r.managers = []) := by
  have hNamed : envVarsNamed DDDogstatsdSocket (expectedContributions x f c)
      = if f.udsEnabled then
          [(none, { Name := DDDogstatsdSocket
                    Value := x.Join DogstatsdSocketLocalPath (x.Base f.udsHostFilepath) })]
        else [] := by
    unfold envVarsNamed
    rw [dogstatsd_expectedContributions_envVars]
    rcases hmp : f.mapperProfiles with
      _ | ⟨⟨_ | configData, _ | ⟨_, _ | ⟨item, rest⟩⟩⟩⟩ <;>
      simp [List.filter_append, apply_ite (List.filter _), List.filter_cons,
      DDDogstatsdSocket, DDDogstatsdPort, DDDogstatsdNonLocalTraffic,
      DDDogstatsdOriginDetection, DDDogstatsdOriginDetectionClient, DDDogstatsdTagCardinality,
      DDDogstatsdMapperProfiles]
  refine ⟨_, dogstatsd_manageNodeAgent_record x f c provider hItems, fun h4 => ?_, fun h4 => ?_⟩
  · rw [hNamed, dogstatsd_expectedContributions_volumes]
    simp [h4, dogstatsdSocketVolumeMount, dogstatsdSocketVolume]
  · rw [hNamed, dogstatsd_expectedContributions_volumes]
    simp [h4]

/-- C15: whenever `dogstatsdFeature.manageNodeAgent` returns, it adds exactly
one container port, to the target container, named `DefaultDogstatsdPortName`
with protocol UDP; its host port is `hostPortHostPort` if the host port is
enabled and non-zero, and 0 otherwise; its container port is `hostPortHostPort`
if moreover the host network is used, and `DefaultDogstatsdPort` (8125)
otherwise; so on the host network a non-zero host port equals the container
port. -/
theorem dogstatsd_manageNodeAgent_container_port (x : Externals) (f : dogstatsdFeature)
    (c : AgentContainerName) (provider : String) (hItems : readsMissingItem f = false) :
    ∃ r port, manageNodeAgent x recordingContributions f c [] provider = some r ∧
      r.managers.filterMap Contribution.port = [(c, port)] ∧
      port.Name = DefaultDogstatsdPortName ∧
      port.Protocol = Protocol.ProtocolUDP ∧
      port.HostPort
        = (if f.hostPortEnabled = true ∧ f.hostPortHostPort ≠ 0 then f.hostPortHostPort
          else 0) ∧
      port.ContainerPort
        = (if f.hostPortEnabled = true ∧ f.hostPortHostPort ≠ 0 ∧ f.useHostNetwork = true then
            f.hostPortHostPort
          else 8125) ∧
      (f.useHostNetwork = true → port.HostPort ≠ 0 → port.ContainerPort = port.HostPort) := by
  refine ⟨_, expectedPort f, dogstatsd_manageNodeAgent_record x f c provider hItems,
    dogstatsd_expectedContributions_ports x f c, rfl, rfl, rfl, rfl, ?_⟩
  intro hNet hHost
  simp only [expectedPort] at hHost ⊢
  split_ifs at hHost ⊢ <;> simp_all

/-- The digit loop of `Nat.repr` yields the base-10 digits of a positive
number, most significant first, in front of what it was given. -/
theorem toDigitsCore_ten_eq_digits (fuel : Nat) :
    ∀ (n : Nat) (ds : List Char), n < fuel → 0 < n →
      Nat.toDigitsCore 10 fuel n ds
        = (Nat.digits 10 n).reverse.map Nat.digitChar ++ ds := by
  induction fuel with
  | zero => intro n ds hlt; omega
  | succ fuel ih =>
    intro n ds hlt hpos
    rw [Nat.digits_def' (by decide) hpos]
    simp only [Nat.toDigitsCore]
    by_cases hq : n / 10 = 0
    · simp [hq]
    · have hlt2 : n / 10 < fuel := by omega
      have hpos2 : 0 < n / 10 := by omega
      simp [hq, ih (n / 10) _ hlt2 hpos2]

/-- The characters of `Itoa n` are the decimal rendering of `n`: a minus sign
if `n` is negative, then the base-10 digits of its absolute value, most
significant first, and the single digit 0 for zero. -/
theorem Itoa_toList (n : Int) :
    (Itoa n).toList
      = (if n < 0 then ['-'] else [])
        ++ (if n = 0 then ['0']
            else (Nat.digits 10 n.natAbs).reverse.map Nat.digitChar) := by
  have hNat : ∀ m : Nat, 0 < m →
      (Nat.repr m).toList = (Nat.digits 10 m).reverse.map Nat.digitChar := by
    intro m hm
    show (Nat.toDigitsCore 10 (m + 1) m []) = _
    rw [toDigitsCore_ten_eq_digits (m + 1) m [] (by omega) hm, List.append_nil]
  rcases n with m | m
  · rcases Nat.eq_zero_or_pos m with h0 | hpos
    · subst h0; rfl
    · have hne : (Int.ofNat m) ≠ 0 := by simp; omega
      have hnn : ¬ (Int.ofNat m) < 0 := by simp
      simp only [hne, hnn, if_false, List.nil_append]
      exact hNat m hpos
  · have hneg : Int.negSucc m < 0 := Int.negSucc_lt_zero m
    have hne : Int.negSucc m ≠ 0 := by omega
    simp only [hneg, hne, if_true, if_false]
    show ['-'] ++ (Nat.repr (m + 1)).toList = _
    rw [hNat (m + 1) (by omega)]
    rfl

/-- C16: whenever `dogstatsdFeature.manageNodeAgent` returns, the env vars
`DDDogstatsdPort` and `DDDogstatsdNonLocalTraffic` (= "true") are added, to
the target container, if and only if the host port is enabled, and the value
of `DDDogstatsdPort` is the decimal rendering of the container port of the
port contributed in the same call: its characters are a minus sign if that
port is negative, then the base-10 digits of its absolute value, most
significant first (the digit 0 for zero). The container port is 8125 and the
value "8125" when `hostPortHostPort` is 0 or the host network is off, and the
container port is `hostPortHostPort` when the host port is enabled and
non-zero on the host network. -/
theorem dogstatsd_manageNodeAgent_port_env_var (x : Externals) (f : dogstatsdFeature)
    (c : AgentContainerName) (provider : String) (hItems : readsMissingItem f = false) :
    ∃ r port, manageNodeAgent x recordingContributions f c [] provider = some r ∧
      r.managers.filterMap Contribution.port = [(c, port)] ∧
      envVarsNamed DDDogstatsdPort r.managers
        = (if f.hostPortEnabled = true then
            [(some c, { Name := DDDogstatsdPort, Value := Itoa port.ContainerPort })]
          else []) ∧
      envVarsNamed DDDogstatsdNonLocalTraffic r.managers
        = (if f.hostPortEnabled = true then
            [(some c, { Name := DDDogstatsdNonLocalTraffic, Value := "true" })]
          else []) ∧
      (f.hostPortHostPort = 0 ∨ f.useHostNetwork = false →
        port.ContainerPort = 8125 ∧ Itoa port.ContainerPort = "8125") ∧
      (Itoa port.ContainerPort).toList
        = (if port.ContainerPort < 0 then ['-'] else [])
          ++ (if port.ContainerPort = 0 then ['0']
              else (Nat.digits 10 port.ContainerPort.natAbs).reverse.map Nat.digitChar) ∧
      port.ContainerPort
        = (if f.hostPortEnabled = true ∧ f.hostPortHostPort ≠ 0 ∧ f.useHostNetwork = true then
            f.hostPortHostPort
          else 8125) := by
  refine ⟨_, expectedPort f, dogstatsd_manageNodeAgent_record x f c provider hItems,
    dogstatsd_expectedContributions_ports x f c, ?_, ?_, ?_, Itoa_toList _, rfl⟩
  · unfold envVarsNamed
    rw [dogstatsd_expectedContributions_envVars]
    rcases hmp : f.mapperProfiles with
      _ | ⟨⟨_ | configData, _ | ⟨_, _ | ⟨item, rest⟩⟩⟩⟩ <;>
      simp [List.filter_append, apply_ite (List.filter _), List.filter_cons,
      DDDogstatsdSocket, DDDogstatsdPort, DDDogstatsdNonLocalTraffic,
      DDDogstatsdOriginDetection, DDDogstatsdOriginDetectionClient, DDDogstatsdTagCardinality,
      DDDogstatsdMapperProfiles]
  · unfold envVarsNamed
    rw [dogstatsd_expectedContributions_envVars]
    rcases hmp : f.mapperProfiles with
      _ | ⟨⟨_ | configData, _ | ⟨_, _ | ⟨item, rest⟩⟩⟩⟩ <;>
      simp [List.filter_append, apply_ite (List.filter _), List.filter_cons,
      DDDogstatsdSocket, DDDogstatsdPort, DDDogstatsdNonLocalTraffic,
      DDDogstatsdOriginDetection, DDDogstatsdOriginDetectionClient, DDDogstatsdTagCardinality,
      DDDogstatsdMapperProfiles]
  · intro hDefault
    have hPort : (expectedPort f).ContainerPort = 8125 := by
      simp only [expectedPort]
      rcases hDefault with h0 | hNet
      · simp [h0, DefaultDogstatsdPort]
      · simp [hNet, DefaultDogstatsdPort]
    exact ⟨hPort, by rw [hPort]; rfl⟩

/-- C18: whenever `dogstatsdFeature.manageNodeAgent` returns, the env var
`DDDogstatsdTagCardinality` is added if and only if origin detection is
enabled and `tagCardinality` is non-empty, with `tagCardinality` as its value,
and `DDDogstatsdOriginDetection` = "true" and
`DDDogstatsdOriginDetectionClient` = "true" are added if and only if origin
detection is enabled. -/
theorem dogstatsd_manageNodeAgent_origin_detection (x : Externals) (f : dogstatsdFeature)
    (c : AgentContainerName) (provider : String) (hItems : readsMissingItem f = false) :
    ∃ r, manageNodeAgent x recordingContributions f c [] provider = some r ∧
      envVarsNamed DDDogstatsdTagCardinality r.managers
        = (if f.originDetectionEnabled = true ∧ f.tagCardinality ≠ "" then
            [(some CoreAgentContainerName,
              { Name := DDDogstatsdTagCardinality, Value := f.tagCardinality })]
          else []) ∧
      envVarsNamed DDDogstatsdOriginDetection r.managers
        = (if f.originDetectionEnabled = true then
            [(some c, { Name := DDDogstatsdOriginDetection, Value := "true" })]
          else []) ∧
      envVarsNamed DDDogstatsdOriginDetectionClient r.managers
        = (if f.originDetectionEnabled = true then
            [(some c, { Name := DDDogstatsdOriginDetectionClient, Value := "true" })]
          else []) := by
  refine ⟨_, dogstatsd_manageNodeAgent_record x f c provider hItems, ?_, ?_, ?_⟩
  · unfold envVarsNamed
    rw [dogstatsd_expectedContributions_envVars]
    rcases hmp : f.mapperProfiles with
      _ | ⟨⟨_ | configData, _ | ⟨_, _ | ⟨item, rest⟩⟩⟩⟩ <;>
      simp [List.filter_append, apply_ite (List.filter _), List.filter_cons,
      DDDogstatsdSocket, DDDogstatsdPort, DDDogstatsdNonLocalTraffic,
      DDDogstatsdOriginDetection, DDDogstatsdOriginDetectionClient, DDDogstatsdTagCardinality,
      DDDogstatsdMapperProfiles] <;>
      split_ifs <;> simp_all
  · unfold envVarsNamed
    rw [dogstatsd_expectedContributions_envVars]
    rcases hmp : f.mapperProfiles with
      _ | ⟨⟨_ | configData, _ | ⟨_, _ | ⟨item, rest⟩⟩⟩⟩ <;>
      simp [List.filter_append, apply_ite (List.filter _), List.filter_cons,
      DDDogstatsdSocket, DDDogstatsdPort, DDDogstatsdNonLocalTraffic,
      DDDogstatsdOriginDetection, DDDogstatsdOriginDetectionClient, DDDogstatsdTagCardinality,
      DDDogstatsdMapperProfiles]
  · unfold envVarsNamed
    rw [dogstatsd_expectedContributions_envVars]
    rcases hmp : f.mapperProfiles with
      _ | ⟨⟨_ | configData, _ | ⟨_, _ | ⟨item, rest⟩⟩⟩⟩ <;>
      simp [List.filter_append, apply_ite (List.filter _), List.filter_cons,
      DDDogstatsdSocket, DDDogstatsdPort, DDDogstatsdNonLocalTraffic,
      DDDogstatsdOriginDetection, DDDogstatsdOriginDetectionClient, DDDogstatsdTagCardinality,
      DDDogstatsdMapperProfiles]

/-- C19: whenever `dogstatsdFeature.manageNodeAgent` returns, it adds at most
one env var named `DDDogstatsdMapperProfiles`: with config data set, the env
var carries the value `YAMLToJSONString` of it and no source, also when a
config map is set; with only a config map set, which has a first item, it
carries a config map key reference with the name of the config map and the key
of that item; with no mapper profiles, none is added. -/
theorem dogstatsd_manageNodeAgent_mapper_profiles (x : Externals) (f : dogstatsdFeature)
    (c : AgentContainerName) (provider : String) (hItems : readsMissingItem f = false) :
    ∃ r, manageNodeAgent x recordingContributions f c [] provider = some r ∧
      (envVarsNamed DDDogstatsdMapperProfiles r.managers).length ≤ 1 ∧
      (∀ mapperProfiles configData, f.mapperProfiles = some mapperProfiles →
        mapperProfiles.ConfigData = some configData →
        envVarsNamed DDDogstatsdMapperProfiles r.managers
          = [(some CoreAgentContainerName,
              { Name := DDDogstatsdMapperProfiles, Value := x.YAMLToJSONString configData,
                ValueFrom := none })]) ∧
      (∀ mapperProfiles configMap item rest, f.mapperProfiles = some mapperProfiles →
        mapperProfiles.ConfigData = none → mapperProfiles.ConfigMap = some configMap →
        configMap.Items = item :: rest →
        envVarsNamed DDDogstatsdMapperProfiles r.managers
          = [(some CoreAgentContainerName,
              { Name := DDDogstatsdMapperProfiles, Value := "",
                ValueFrom :=
                  some { ConfigMapKeyRef := some { Name := configMap.Name, Key := item.Key },
                         SecretKeyRef := none } })]) ∧
      (f.mapperProfiles = none → envVarsNamed DDDogstatsdMapperProfiles r.managers = []) := by
  have hNamed : envVarsNamed DDDogstatsdMapperProfiles (expectedContributions x f c)
      = match f.mapperProfiles with
        | none => []
        | some mapperProfiles =>
          match mapperProfiles.ConfigData with
          | some configData =>
            [(some CoreAgentContainerName,
              { Name := DDDogstatsdMapperProfiles, Value := x.YAMLToJSONString configData })]
          | none =>
            match mapperProfiles.ConfigMap with
            | none => []
            | some configMap =>
              match configMap.Items with
              | [] => []
              | item :: _ =>
                [(some CoreAgentContainerName,
                  { Name := DDDogstatsdMapperProfiles
                    ValueFrom :=
                      some { ConfigMapKeyRef :=
                               some { Name := configMap.Name, Key := item.Key } } })] := by
    unfold envVarsNamed
    rw [dogstatsd_expectedContributions_envVars]
    rcases hmp : f.mapperProfiles with
      _ | ⟨⟨_ | configData, _ | ⟨_, _ | ⟨item, rest⟩⟩⟩⟩ <;>
      simp [List.filter_append, apply_ite (List.filter _), List.filter_cons,
      DDDogstatsdSocket, DDDogstatsdPort, DDDogstatsdNonLocalTraffic,
      DDDogstatsdOriginDetection, DDDogstatsdOriginDetectionClient, DDDogstatsdTagCardinality,
      DDDogstatsdMapperProfiles]
  refine ⟨_, dogstatsd_manageNodeAgent_record x f c provider hItems, ?_, ?_, ?_, ?_⟩
  · rw [hNamed]
    rcases f.mapperProfiles with
      _ | ⟨⟨_ | configData, _ | ⟨_, _ | ⟨item, rest⟩⟩⟩⟩ <;> simp
  · intro mapperProfiles configData hmp hcd
    rw [hNamed, hmp]
    simp [hcd]
  · intro mapperProfiles configMap item rest hmp hcd hcm hit
    rw [hNamed, hmp]
    simp [hcd, hcm, hit]
  · intro hmp
    rw [hNamed, hmp]

end Dogstatsd

section DogstatsdWitnesses

open dogstatsd

/-- Witness of C14: the feature on the host network, which has the socket
enabled, for the core-agent container. -/
theorem dogstatsd_manageNodeAgent_socket_witness :
    readsMissingItem dogstatsdOnHostNetwork = false ∧
    ∃ r, manageNodeAgent sampleExternals recordingContributions dogstatsdOnHostNetwork
        CoreAgentContainerName [] "default" = some r ∧
      (dogstatsdOnHostNetwork.udsEnabled = true →
        r.managers.filter Contribution.isVolumeOrMount
          = [Contribution.AddVolumeMountToContainerWithMergeFunc
               { Name := DogstatsdSocketVolumeName, MountPath := DogstatsdSocketLocalPath,
                 ReadOnly := false } CoreAgentContainerName
               OverrideCurrentVolumeMountMergeFunction,
             Contribution.AddVolume
               { Name := DogstatsdSocketVolumeName
                 VolumeSource :=
                   { HostPath :=
                       some { Path := sampleExternals.Dir dogstatsdOnHostNetwork.udsHostFilepath
                              Type_ := some HostPathType.HostPathDirectoryOrCreate } } }] ∧
        envVarsNamed DDDogstatsdSocket r.managers
          = [(none, { Name := DDDogstatsdSocket
                      Value := sampleExternals.Join DogstatsdSocketLocalPath
                        (sampleExternals.Base dogstatsdOnHostNetwork.udsHostFilepath) })]) ∧
      (dogstatsdOnHostNetwork.udsEnabled = false →
        r.managers.filter Contribution.isVolumeOrMount = [] ∧
        envVarsNamed DDDogstatsdSocket r.managers = []) :=
  ⟨rfl, dogstatsd_manageNodeAgent_socket sampleExternals dogstatsdOnHostNetwork
    CoreAgentContainerName "default" rfl⟩

/-- Witness of C15: the feature with host port 8130 on the host network. -/
theorem dogstatsd_manageNodeAgent_container_port_witness :
    readsMissingItem dogstatsdOnHostNetwork = false ∧
    ∃ r port, manageNodeAgent sampleExternals recordingContributions dogstatsdOnHostNetwork
        CoreAgentContainerName [] "default" = some r ∧
      r.managers.filterMap Contribution.port = [(CoreAgentContainerName, port)] ∧
      port.Name = DefaultDogstatsdPortName ∧
      port.Protocol = Protocol.ProtocolUDP ∧
      port.HostPort
        = (if dogstatsdOnHostNetwork.hostPortEnabled = true ∧
              dogstatsdOnHostNetwork.hostPortHostPort ≠ 0 then
            dogstatsdOnHostNetwork.hostPortHostPort
          else 0) ∧
      port.ContainerPort
        = (if dogstatsdOnHostNetwork.hostPortEnabled = true ∧
              dogstatsdOnHostNetwork.hostPortHostPort ≠ 0 ∧
              dogstatsdOnHostNetwork.useHostNetwork = true then
            dogstatsdOnHostNetwork.hostPortHostPort
          else 8125) ∧
      (dogstatsdOnHostNetwork.useHostNetwork = true → port.HostPort ≠ 0 →
        port.ContainerPort = port.HostPort) :=
  ⟨rfl, dogstatsd_manageNodeAgent_container_port sampleExternals dogstatsdOnHostNetwork
    CoreAgentContainerName "default" rfl⟩

/-- Witness of C16: the feature with host port 8130 on the host network; the
port variable reads "8130", the container port of the contributed port. -/
theorem dogstatsd_manageNodeAgent_port_env_var_witness :
    readsMissingItem dogstatsdOnHostNetwork = false ∧
    (∃ r port, manageNodeAgent sampleExternals recordingContributions dogstatsdOnHostNetwork
        CoreAgentContainerName [] "default" = some r ∧
      r.managers.filterMap Contribution.port = [(CoreAgentContainerName, port)] ∧
      envVarsNamed DDDogstatsdPort r.managers
        = (if dogstatsdOnHostNetwork.hostPortEnabled = true then
            [(some CoreAgentContainerName,
              { Name := DDDogstatsdPort, Value := Itoa port.ContainerPort })]
          else []) ∧
      envVarsNamed DDDogstatsdNonLocalTraffic r.managers
        = (if dogstatsdOnHostNetwork.hostPortEnabled = true then
            [(some CoreAgentContainerName,
              { Name := DDDogstatsdNonLocalTraffic, Value := "true" })]
          else []) ∧
      (dogstatsdOnHostNetwork.hostPortHostPort = 0 ∨
          dogstatsdOnHostNetwork.useHostNetwork = false →
        port.ContainerPort = 8125 ∧ Itoa port.ContainerPort = "8125") ∧
      (Itoa port.ContainerPort).toList
        = (if port.ContainerPort < 0 then ['-'] else [])
          ++ (if port.ContainerPort = 0 then ['0']
              else (Nat.digits 10 port.ContainerPort.natAbs).reverse.map Nat.digitChar) ∧
      port.ContainerPort
        = (if dogstatsdOnHostNetwork.hostPortEnabled = true ∧
              dogstatsdOnHostNetwork.hostPortHostPort ≠ 0 ∧
              dogstatsdOnHostNetwork.useHostNetwork = true then
            dogstatsdOnHostNetwork.hostPortHostPort
          else 8125)) ∧
    (manageNodeAgent sampleExternals recordingContributions dogstatsdOnHostNetwork
        CoreAgentContainerName [] "default").map
      (fun r => (r.managers.filterMap Contribution.port,
                 envVarsNamed DDDogstatsdPort r.managers))
      = some ([(CoreAgentContainerName,
                { Name := DefaultDogstatsdPortName, HostPort := 8130, ContainerPort := 8130,
                  Protocol := Protocol.ProtocolUDP })],
              [(some CoreAgentContainerName, { Name := DDDogstatsdPort, Value := "8130" })]) :=
  ⟨rfl, dogstatsd_manageNodeAgent_port_env_var sampleExternals dogstatsdOnHostNetwork
    CoreAgentContainerName "default" rfl, rfl⟩

/-- Witness of C18: the feature with origin detection on and tag cardinality
"high", in the single-container method's target. -/
theorem dogstatsd_manageNodeAgent_origin_detection_witness :
    readsMissingItem dogstatsdWithCardinality = false ∧
    ∃ r, manageNodeAgent sampleExternals recordingContributions dogstatsdWithCardinality
        UnprivilegedSingleAgentContainerName [] "default" = some r ∧
      envVarsNamed DDDogstatsdTagCardinality r.managers
        = (if dogstatsdWithCardinality.originDetectionEnabled = true ∧
              dogstatsdWithCardinality.tagCardinality ≠ "" then
            [(some CoreAgentContainerName,
              { Name := DDDogstatsdTagCardinality
                Value := dogstatsdWithCardinality.tagCardinality })]
          else []) ∧
      envVarsNamed DDDogstatsdOriginDetection r.managers
        = (if dogstatsdWithCardinality.originDetectionEnabled = true then
            [(some UnprivilegedSingleAgentContainerName,
              { Name := DDDogstatsdOriginDetection, Value := "true" })]
          else []) ∧
      envVarsNamed DDDogstatsdOriginDetectionClient r.managers
        = (if dogstatsdWithCardinality.originDetectionEnabled = true then
            [(some UnprivilegedSingleAgentContainerName,
              { Name := DDDogstatsdOriginDetectionClient, Value := "true" })]
          else []) :=
  ⟨rfl, dogstatsd_manageNodeAgent_origin_detection sampleExternals dogstatsdWithCardinality
    UnprivilegedSingleAgentContainerName "default" rfl⟩

/-- Witness of C19: the feature whose mapper profiles have both config data
and a config map. -/
theorem dogstatsd_manageNodeAgent_mapper_profiles_witness :
    readsMissingItem dogstatsdWithBothProfiles = false ∧
    ∃ r, manageNodeAgent sampleExternals recordingContributions dogstatsdWithBothProfiles
        CoreAgentContainerName [] "default" = some r ∧
      (envVarsNamed DDDogstatsdMapperProfiles r.managers).length ≤ 1 ∧
      (∀ mapperProfiles configData,
        dogstatsdWithBothProfiles.mapperProfiles = some mapperProfiles →
        mapperProfiles.ConfigData = some configData →
        envVarsNamed DDDogstatsdMapperProfiles r.managers
          = [(some CoreAgentContainerName,
              { Name := DDDogstatsdMapperProfiles
                Value := sampleExternals.YAMLToJSONString configData
                ValueFrom := none })]) ∧
      (∀ mapperProfiles configMap item rest,
        dogstatsdWithBothProfiles.mapperProfiles = some mapperProfiles →
        mapperProfiles.ConfigData = none → mapperProfiles.ConfigMap = some configMap →
        configMap.Items = item :: rest →
        envVarsNamed DDDogstatsdMapperProfiles r.managers
          = [(some CoreAgentContainerName,
              { Name := DDDogstatsdMapperProfiles, Value := "",
                ValueFrom :=
                  some { ConfigMapKeyRef := some { Name := configMap.Name, Key := item.Key },
                         SecretKeyRef := none } })]) ∧
      (dogstatsdWithBothProfiles.mapperProfiles = none →
        envVarsNamed DDDogstatsdMapperProfiles r.managers = []) :=
  ⟨rfl, dogstatsd_manageNodeAgent_mapper_profiles sampleExternals dogstatsdWithBothProfiles
    CoreAgentContainerName "default" rfl⟩

/-- C13, what the code does at the failing input: for a feature with origin
detection, a tag cardinality and mapper profiles,
`dogstatsdFeature.ManageSingleContainerNodeAgent` scopes its calls to the
unprivileged single agent container for the port and the two origin detection
variables only: the tag cardinality and the mapper profiles variables are
scoped to core-agent, and on fresh field managers they end in the core-agent
container and not in the unprivileged single agent container. -/
theorem dogstatsd_single_container_contributes_to_core_agent :
    (∃ r, ManageSingleContainerNodeAgent sampleExternals recordingContributions
        dogstatsdWithCardinality [] "default" = some r ∧
      r.managers.filterMap Contribution.container
        = [UnprivilegedSingleAgentContainerName, UnprivilegedSingleAgentContainerName,
           UnprivilegedSingleAgentContainerName, CoreAgentContainerName,
           CoreAgentContainerName] ∧
      r.managers.filterMap Contribution.envVar
        = [(some UnprivilegedSingleAgentContainerName,
            { Name := DDDogstatsdOriginDetection, Value := "true" }),
           (some UnprivilegedSingleAgentContainerName,
            { Name := DDDogstatsdOriginDetectionClient, Value := "true" }),
           (some CoreAgentContainerName,
            { Name := DDDogstatsdTagCardinality, Value := "high" }),
           (some CoreAgentContainerName,
            { Name := DDDogstatsdMapperProfiles, Value := "profiles" })]) ∧
    (∃ r, ManageSingleContainerNodeAgent sampleExternals (fieldManagers defaultMergePolicies)
        dogstatsdWithCardinality FieldManagers.empty "default" = some r ∧
      r.managers.EnvVarsByC CoreAgentContainerName
        = [{ Name := DDDogstatsdTagCardinality, Value := "high" },
           { Name := DDDogstatsdMapperProfiles, Value := "profiles" }] ∧
      r.managers.EnvVarsByC UnprivilegedSingleAgentContainerName
        = [{ Name := DDDogstatsdOriginDetection, Value := "true" },
           { Name := DDDogstatsdOriginDetectionClient, Value := "true" }]) :=
  ⟨⟨_, rfl, rfl, rfl⟩, ⟨_, rfl, rfl, rfl⟩⟩

/-- C17: for a configured feature (its owner is set) and any resource managers,
`dogstatsdFeature.ManageDependencies` leaves the managers as they are and
returns nil when `ShouldCreateAgentLocalService` of the version info and
`forceEnableLocalService` is false; when it is true it makes one `AddService`
call, for the service named `localServiceName` in the owner's namespace with
internal traffic policy Local and one UDP port, and returns what that call
returned: port 8125 to target port 8125 under the default port name with the
host port disabled; port `hostPortHostPort` under the host port name to target
port 8125 with the host port enabled off the host network, and to target port
`hostPortHostPort` on the host network. -/
theorem dogstatsd_ManageDependencies_local_service {ρ : Type} (h : LocalServiceHelpers)
    (m : ResourceManagers ρ) (f : dogstatsdFeature) (owner : DatadogAgent) (managers : ρ)
    (components : RequiredComponents) (hOwner : f.owner = some owner) :
    (h.ShouldCreateAgentLocalService (m.GetVersionInfo managers) f.forceEnableLocalService
        = false →
      ManageDependencies h m f managers components
        = some { receiver := f, managers := managers, err := none }) ∧
    (h.ShouldCreateAgentLocalService (m.GetVersionInfo managers) f.forceEnableLocalService
        = true →
      (f.hostPortEnabled = false →
        ∃ r, ManageDependencies h m f managers components = some r ∧ r.receiver = f ∧
          (r.managers, r.err)
            = m.AddService f.localServiceName owner.Namespace
                (h.GetAgentLocalServiceSelector owner)
                [{ Name := DefaultDogstatsdPortName, Protocol := Protocol.ProtocolUDP,
                   Port := 8125, TargetPort := IntOrString.Int 8125 }]
                (some ServiceInternalTrafficPolicy.ServiceInternalTrafficPolicyLocal)
                managers) ∧
      (f.hostPortEnabled = true → f.useHostNetwork = false →
        ∃ r, ManageDependencies h m f managers components = some r ∧ r.receiver = f ∧
          (r.managers, r.err)
            = m.AddService f.localServiceName owner.Namespace
                (h.GetAgentLocalServiceSelector owner)
                [{ Name := DogstatsdHostPortName, Protocol := Protocol.ProtocolUDP,
                   Port := f.hostPortHostPort, TargetPort := IntOrString.Int 8125 }]
                (some ServiceInternalTrafficPolicy.ServiceInternalTrafficPolicyLocal)
                managers) ∧
      (f.hostPortEnabled = true → f.useHostNetwork = true →
        ∃ r, ManageDependencies h m f managers components = some r ∧ r.receiver = f ∧
          (r.managers, r.err)
            = m.AddService f.localServiceName owner.Namespace
                (h.GetAgentLocalServiceSelector owner)
                [{ Name := DogstatsdHostPortName, Protocol := Protocol.ProtocolUDP,
                   Port := f.hostPortHostPort,
                   TargetPort := IntOrString.Int f.hostPortHostPort }]
                (some ServiceInternalTrafficPolicy.ServiceInternalTrafficPolicyLocal)
                managers)) := by
  refine ⟨fun hNo => ?_, fun hYes => ⟨fun hPort => ?_, fun hPort hNet => ?_,
    fun hPort hNet => ?_⟩⟩
  · simp [ManageDependencies, hNo]
  · simp only [ManageDependencies, hYes, hOwner, hPort]
    cases hErr : (m.AddService f.localServiceName owner.Namespace
        (h.GetAgentLocalServiceSelector owner)
        [{ Name := DefaultDogstatsdPortName, Protocol := Protocol.ProtocolUDP,
           Port := 8125, TargetPort := IntOrString.Int 8125 }]
        (some ServiceInternalTrafficPolicy.ServiceInternalTrafficPolicyLocal) managers).2 <;>
      simp_all [FromInt, DefaultDogstatsdPort, Prod.ext_iff]
  · simp only [ManageDependencies, hYes, hOwner, hPort, hNet]
    cases hErr : (m.AddService f.localServiceName owner.Namespace
        (h.GetAgentLocalServiceSelector owner)
        [{ Name := DogstatsdHostPortName, Protocol := Protocol.ProtocolUDP,
           Port := f.hostPortHostPort, TargetPort := IntOrString.Int 8125 }]
        (some ServiceInternalTrafficPolicy.ServiceInternalTrafficPolicyLocal) managers).2 <;>
      simp_all [FromInt, DefaultDogstatsdPort, Prod.ext_iff]
  · simp only [ManageDependencies, hYes, hOwner, hPort, hNet]
    cases hErr : (m.AddService f.localServiceName owner.Namespace
        (h.GetAgentLocalServiceSelector owner)
        [{ Name := DogstatsdHostPortName, Protocol := Protocol.ProtocolUDP,
           Port := f.hostPortHostPort, TargetPort := IntOrString.Int f.hostPortHostPort }]
        (some ServiceInternalTrafficPolicy.ServiceInternalTrafficPolicyLocal) managers).2 <;>
      simp_all [FromInt, DefaultDogstatsdPort, Prod.ext_iff]

end DogstatsdWitnesses

section DefaultFeature

open enabledefault

/-- Witness of C17: the feature on the host network, whose local service is
forced, on recording managers whose `AddService` fails: the one call is made
and its error is returned. -/
theorem dogstatsd_ManageDependencies_local_service_witness :
    dogstatsdOnHostNetwork.owner = some { Namespace := "datadog", Name := "dda" } ∧
    ∃ r, dogstatsd.ManageDependencies sampleLocalServiceHelpers
        (recordingManagersAt none (fun _ => some (Error.DependencyError "service rejected")))
        dogstatsdOnHostNetwork [] nodeAndClusterAgentRequired = some r ∧
      r.receiver = dogstatsdOnHostNetwork ∧
      (r.managers, r.err)
        = ([ResourceCall.AddService "dda-agent" "datadog" [("agent.datadoghq.com/name", "dda")]
              [{ Name := DogstatsdHostPortName, Protocol := Protocol.ProtocolUDP, Port := 8130,
                 TargetPort := IntOrString.Int 8130 }]
              (some ServiceInternalTrafficPolicy.ServiceInternalTrafficPolicyLocal)],
           some (Error.DependencyError "service rejected")) :=
  ⟨rfl, (dogstatsd_ManageDependencies_local_service sampleLocalServiceHelpers
    (recordingManagersAt none (fun _ => some (Error.DependencyError "service rejected")))
    dogstatsdOnHostNetwork { Namespace := "datadog", Name := "dda" } []
    nodeAndClusterAgentRequired rfl).2 rfl |>.2.2 rfl rfl⟩

/-- The credentials block leaves the token part, the OTel flag and the
checksum annotation alone. -/
theorem configureCredentials_frame (h : ConfigureHelpers) (f : defaultFeature)
    (dda : DatadogAgent) (creds : DatadogCredentials) :
    (configureCredentials h f dda creds).dcaTokenInfo = f.dcaTokenInfo ∧
    (configureCredentials h f dda creds).otelAgentEnabled = f.otelAgentEnabled := by
  obtain ⟨_ | apiKey, _ | apiSecret, _ | appKey, _ | appSecret⟩ := creds <;>
    exact ⟨rfl, rfl⟩

/-- The token block: the token reference, the secret to create, by the case of
the global section. -/
theorem configureClusterAgentToken_dcaTokenInfo (h : ConfigureHelpers)
    (GenerateRandomString : Nat → String) (f : defaultFeature) (dda : DatadogAgent)
    (globalConfig : GlobalConfig) :
    (configureClusterAgentToken h GenerateRandomString f dda globalConfig).dcaTokenInfo
      = (match globalConfig.ClusterAgentToken with
        | some clusterAgentToken =>
          { token := { SecretName := h.GetDefaultDCATokenSecretName dda
                       SecretKey := DefaultTokenKey }
            secretCreation :=
              { createSecret := true, name := h.GetDefaultDCATokenSecretName dda
                data := mapSet f.dcaTokenInfo.secretCreation.data DefaultTokenKey
                  clusterAgentToken } }
        | none =>
          match globalConfig.ClusterAgentTokenSecret with
          | some clusterAgentTokenSecret =>
            { token := { SecretName := clusterAgentTokenSecret.SecretName
                         SecretKey := clusterAgentTokenSecret.KeyName }
              secretCreation := f.dcaTokenInfo.secretCreation }
          | none =>
            { token := { SecretName := h.GetDefaultDCATokenSecretName dda
                         SecretKey := DefaultTokenKey }
              secretCreation :=
                { createSecret := true, name := h.GetDefaultDCATokenSecretName dda
                  data := mapSet f.dcaTokenInfo.secretCreation.data DefaultTokenKey
                    (match dda.Status.ClusterAgent with
                     | none => GenerateRandomString 32
                     | some clusterAgentStatus =>
                       if clusterAgentStatus.GeneratedToken = "" then GenerateRandomString 32
                       else clusterAgentStatus.GeneratedToken) } }) := by
  unfold configureClusterAgentToken
  rcases hTok : globalConfig.ClusterAgentToken with _ | clusterAgentToken
  · rcases hSec : globalConfig.ClusterAgentTokenSecret with _ | clusterAgentTokenSecret
    · rcases hSt : dda.Status.ClusterAgent with _ | clusterAgentStatus
      · rfl
      · by_cases hTokEmpty : clusterAgentStatus.GeneratedToken = "" <;> simp [hTokEmpty]
    · rfl
  · rfl

/-- The token part of `defaultFeature.Configure` is the one of the token block
run on the token part the instance had. -/
theorem defaultFeature_Configure_dcaTokenInfo (h : ConfigureHelpers)
    (GenerateRandomString : Nat → String) (f : defaultFeature) (dda : DatadogAgent)
    (globalConfig : GlobalConfig) (hGlobal : dda.Spec.Global = some globalConfig) :
    (Configure h GenerateRandomString f dda).1.dcaTokenInfo
      = (configureClusterAgentToken h GenerateRandomString f dda globalConfig).dcaTokenInfo := by
  have hFrame : ∀ g : defaultFeature, g.dcaTokenInfo = f.dcaTokenInfo →
      (configureClusterAgentToken h GenerateRandomString g dda globalConfig).dcaTokenInfo
        = (configureClusterAgentToken h GenerateRandomString f dda globalConfig).dcaTokenInfo := by
    intro g hg
    rw [configureClusterAgentToken_dcaTokenInfo, configureClusterAgentToken_dcaTokenInfo, hg]
  unfold Configure
  simp only [hGlobal]
  split_ifs <;> rcases hCreds : globalConfig.Credentials with _ | creds <;>
    first
    | exact hFrame _ rfl
    | exact hFrame _ (configureCredentials_frame h _ dda creds).1

/-- The token block does not depend on the random source when no token is
drawn. -/
theorem configureClusterAgentToken_without_draw (h : ConfigureHelpers)
    (draw1 draw2 : Nat → String) (f : defaultFeature) (dda : DatadogAgent)
    (globalConfig : GlobalConfig) (hGlobal : dda.Spec.Global = some globalConfig)
    (hNoDraw : generatesToken dda = false) :
    configureClusterAgentToken h draw1 f dda globalConfig
      = configureClusterAgentToken h draw2 f dda globalConfig := by
  unfold generatesToken at hNoDraw
  rw [hGlobal] at hNoDraw
  unfold configureClusterAgentToken
  rcases hTok : globalConfig.ClusterAgentToken with _ | clusterAgentToken
  · rcases hSec : globalConfig.ClusterAgentTokenSecret with _ | clusterAgentTokenSecret
    · rcases hSt : dda.Status.ClusterAgent with _ | clusterAgentStatus
      · simp [hTok, hSec, hSt] at hNoDraw
      · have hStored : clusterAgentStatus.GeneratedToken ≠ "" := by
          simpa [hTok, hSec, hSt] using hNoDraw
        simp [hStored]
    · rfl
  · rfl

/-- C11, as the code has it: two fresh default-feature instances configured on
the same desired state, each with its own random source, end in the same
derived state and return the same required components whenever no token is
drawn, that is unless the global section is set with neither a token nor a
token secret and the status holds no generated token. -/
theorem defaultFeature_Configure_deterministic_without_draw (h : ConfigureHelpers)
    (draw1 draw2 : Nat → String) (options : Option Options) (dda : DatadogAgent)
    (hNoDraw : generatesToken dda = false) :
    Configure h draw1 (buildDefaultFeature options) dda
      = Configure h draw2 (buildDefaultFeature options) dda := by
  unfold Configure
  rcases hGlobal : dda.Spec.Global with _ | globalConfig
  · rfl
  · simp only [configureClusterAgentToken_without_draw h draw1 draw2 _ dda globalConfig hGlobal
      hNoDraw]

/-- Witness of the amended C11: the desired state with a stored token, with
two random sources that never agree. -/
theorem defaultFeature_Configure_deterministic_without_draw_witness :
    generatesToken ddaWithStoredToken = false ∧
    Configure sampleConfigureHelpers drawsA (buildDefaultFeature none) ddaWithStoredToken
      = Configure sampleConfigureHelpers drawsB (buildDefaultFeature none) ddaWithStoredToken :=
  ⟨rfl, defaultFeature_Configure_deterministic_without_draw sampleConfigureHelpers drawsA drawsB
    none ddaWithStoredToken rfl⟩

/-- Counterexample to C11 as stated: for the desired state with an empty global
section and no stored token, two fresh instances whose random sources draw
different strings end with different token secret data, hence in different
derived states. -/
theorem defaultFeature_Configure_draws_differ_counterexample :
    (Configure sampleConfigureHelpers drawsA (buildDefaultFeature none)
        ddaWithoutToken).1.dcaTokenInfo.secretCreation.data
      = [(DefaultTokenKey, "aaaaaaaaaaaaaaaaaaaaaaaaaaaaaaaa")] ∧
    (Configure sampleConfigureHelpers drawsB (buildDefaultFeature none)
        ddaWithoutToken).1.dcaTokenInfo.secretCreation.data
      = [(DefaultTokenKey, "bbbbbbbbbbbbbbbbbbbbbbbbbbbbbbbb")] ∧
    (Configure sampleConfigureHelpers drawsA (buildDefaultFeature none) ddaWithoutToken).1
      ≠ (Configure sampleConfigureHelpers drawsB (buildDefaultFeature none)
          ddaWithoutToken).1 := by
  decide

/-- C12: for a desired state whose global section gives neither a token nor a
token secret and whose status holds a non-empty generated token,
`defaultFeature.Configure` of a fresh instance sets the token secret to be
created under the default token secret name with data exactly
`DefaultTokenKey` mapped to the stored token, whatever the random source (no
token is generated), and the token reference names that secret and
`DefaultTokenKey`. -/
theorem defaultFeature_Configure_reuses_stored_token (h : ConfigureHelpers)
    (GenerateRandomString : Nat → String) (options : Option Options) (dda : DatadogAgent)
    (globalConfig : GlobalConfig) (clusterAgentStatus : DeploymentStatus)
    (hGlobal : dda.Spec.Global = some globalConfig)
    (hToken : globalConfig.ClusterAgentToken = none)
    (hSecret : globalConfig.ClusterAgentTokenSecret = none)
    (hStatus : dda.Status.ClusterAgent = some clusterAgentStatus)
    (hStored : clusterAgentStatus.GeneratedToken ≠ "") :
    (Configure h GenerateRandomString (buildDefaultFeature options)
        dda).1.dcaTokenInfo.secretCreation.createSecret = true ∧
    (Configure h GenerateRandomString (buildDefaultFeature options)
        dda).1.dcaTokenInfo.secretCreation.name = h.GetDefaultDCATokenSecretName dda ∧
    (Configure h GenerateRandomString (buildDefaultFeature options)
        dda).1.dcaTokenInfo.secretCreation.data
      = [(DefaultTokenKey, clusterAgentStatus.GeneratedToken)] ∧
    (Configure h GenerateRandomString (buildDefaultFeature options) dda).1.dcaTokenInfo.token
      = { SecretName := h.GetDefaultDCATokenSecretName dda, SecretKey := DefaultTokenKey } := by
  rw [defaultFeature_Configure_dcaTokenInfo h GenerateRandomString _ dda globalConfig hGlobal,
    configureClusterAgentToken_dcaTokenInfo]
  cases options <;> simp [hToken, hSecret, hStatus, hStored, buildDefaultFeature, mapSet]

/-- Witness of C12: the desired state with the stored token. -/
theorem defaultFeature_Configure_reuses_stored_token_witness :
    (Configure sampleConfigureHelpers drawsA (buildDefaultFeature none)
        ddaWithStoredToken).1.dcaTokenInfo.secretCreation.createSecret = true ∧
    (Configure sampleConfigureHelpers drawsA (buildDefaultFeature none)
        ddaWithStoredToken).1.dcaTokenInfo.secretCreation.name
      = sampleConfigureHelpers.GetDefaultDCATokenSecretName ddaWithStoredToken ∧
    (Configure sampleConfigureHelpers drawsA (buildDefaultFeature none)
        ddaWithStoredToken).1.dcaTokenInfo.secretCreation.data
      = [(DefaultTokenKey, "stored-token")] ∧
    (Configure sampleConfigureHelpers drawsA (buildDefaultFeature none)
        ddaWithStoredToken).1.dcaTokenInfo.token
      = { SecretName := sampleConfigureHelpers.GetDefaultDCATokenSecretName ddaWithStoredToken
          SecretKey := DefaultTokenKey } :=
  defaultFeature_Configure_reuses_stored_token sampleConfigureHelpers drawsA none
    ddaWithStoredToken {} { GeneratedToken := "stored-token" } rfl rfl rfl rfl (by decide)

/-- C20: for a desired state with a global section, `defaultFeature.Configure`
of a fresh instance: with a token given, creates the secret under the default
token secret name with data `DefaultTokenKey` mapped to that token, a token
secret being given or not; with only a token secret given, creates no secret
(no data) and refers to the given secret name and key; with neither, creates
the secret with `DefaultTokenKey` mapped to the generated token of the status
when that is non-empty, and otherwise to the string `GenerateRandomString 32`
drew, of 32 characters when that function returns strings of the length it is
asked for. -/
theorem defaultFeature_Configure_token_precedence (h : ConfigureHelpers)
    (GenerateRandomString : Nat → String) (options : Option Options) (dda : DatadogAgent)
    (globalConfig : GlobalConfig) (hGlobal : dda.Spec.Global = some globalConfig)
    (hLength : (GenerateRandomString 32).length = 32) :
    (∀ clusterAgentToken, globalConfig.ClusterAgentToken = some clusterAgentToken →
      (Configure h GenerateRandomString (buildDefaultFeature options) dda).1.dcaTokenInfo
        = { token := { SecretName := h.GetDefaultDCATokenSecretName dda
                       SecretKey := DefaultTokenKey }
            secretCreation :=
              { createSecret := true, name := h.GetDefaultDCATokenSecretName dda
                data := [(DefaultTokenKey, clusterAgentToken)] } }) ∧
    (∀ clusterAgentTokenSecret, globalConfig.ClusterAgentToken = none →
      globalConfig.ClusterAgentTokenSecret = some clusterAgentTokenSecret →
      (Configure h GenerateRandomString (buildDefaultFeature options) dda).1.dcaTokenInfo
        = { token := { SecretName := clusterAgentTokenSecret.SecretName
                       SecretKey := clusterAgentTokenSecret.KeyName }
            secretCreation := { createSecret := false, name := "", data := [] } }) ∧
    (globalConfig.ClusterAgentToken = none → globalConfig.ClusterAgentTokenSecret = none →
      ∃ token,
        (Configure h GenerateRandomString (buildDefaultFeature options) dda).1.dcaTokenInfo
          = { token := { SecretName := h.GetDefaultDCATokenSecretName dda
                         SecretKey := DefaultTokenKey }
              secretCreation :=
                { createSecret := true, name := h.GetDefaultDCATokenSecretName dda
                  data := [(DefaultTokenKey, token)] } } ∧
        (∀ clusterAgentStatus, dda.Status.ClusterAgent = some clusterAgentStatus →
          clusterAgentStatus.GeneratedToken ≠ "" →
          token = clusterAgentStatus.GeneratedToken) ∧
        ((dda.Status.ClusterAgent = none ∨
            ∃ clusterAgentStatus, dda.Status.ClusterAgent = some clusterAgentStatus ∧
              clusterAgentStatus.GeneratedToken = "") →
          token = GenerateRandomString 32 ∧ token.length = 32)) := by
  rw [defaultFeature_Configure_dcaTokenInfo h GenerateRandomString _ dda globalConfig hGlobal,
    configureClusterAgentToken_dcaTokenInfo]
  refine ⟨fun clusterAgentToken hToken => ?_, fun clusterAgentTokenSecret hToken hSecret => ?_,
    fun hToken hSecret => ?_⟩
  · cases options <;> simp [hToken, buildDefaultFeature, mapSet]
  · cases options <;> simp [hToken, hSecret, buildDefaultFeature]
  · rcases hStatus : dda.Status.ClusterAgent with _ | clusterAgentStatus
    · refine ⟨GenerateRandomString 32, ?_, ?_, fun _ => ⟨rfl, hLength⟩⟩
      · cases options <;> simp [hToken, hSecret, buildDefaultFeature, mapSet]
      · intro clusterAgentStatus hSome
        cases hSome
    · by_cases hStored : clusterAgentStatus.GeneratedToken = ""
      · refine ⟨GenerateRandomString 32, ?_, ?_, fun _ => ⟨rfl, hLength⟩⟩
        · cases options <;> simp [hToken, hSecret, hStored, buildDefaultFeature, mapSet]
        · intro other hSome hOther
          cases hSome
          exact absurd hStored hOther
      · refine ⟨clusterAgentStatus.GeneratedToken, ?_, ?_, ?_⟩
        · cases options <;> simp [hToken, hSecret, hStored, buildDefaultFeature, mapSet]
        · intro other hSome _
          cases hSome
          rfl
        · rintro (hNone | ⟨other, hSome, hEmpty⟩)
          · cases hNone
          · cases hSome
            exact absurd hEmpty hStored

/-- Witness of C20: the desired state that gives both a token and a token
secret, with the random source that draws the letter `a`. -/
theorem defaultFeature_Configure_token_precedence_witness :
    ddaWithTokenAndSecret.Spec.Global
      = some { ClusterAgentToken := some "user-token",
               ClusterAgentTokenSecret :=
                 some { SecretName := "user-secret", KeyName := "user-key" } } ∧
    (drawsA 32).length = 32 ∧
    (Configure sampleConfigureHelpers drawsA (buildDefaultFeature none)
        ddaWithTokenAndSecret).1.dcaTokenInfo
      = { token := { SecretName := "dda-token", SecretKey := DefaultTokenKey }
          secretCreation :=
            { createSecret := true, name := "dda-token"
              data := [(DefaultTokenKey, "user-token")] } } :=
  ⟨rfl, rfl,
    (defaultFeature_Configure_token_precedence sampleConfigureHelpers drawsA none
      ddaWithTokenAndSecret
      { ClusterAgentToken := some "user-token",
        ClusterAgentTokenSecret := some { SecretName := "user-secret", KeyName := "user-key" } }
      rfl rfl).1 "user-token" rfl⟩

end DefaultFeature

section LastClaims

open enabledefault

/-- The token block leaves the OTel flag alone. -/
theorem configureClusterAgentToken_otelAgentEnabled (h : ConfigureHelpers)
    (GenerateRandomString : Nat → String) (f : defaultFeature) (dda : DatadogAgent)
    (globalConfig : GlobalConfig) :
    (configureClusterAgentToken h GenerateRandomString f dda globalConfig).otelAgentEnabled
      = f.otelAgentEnabled := by
  unfold configureClusterAgentToken
  rcases hTok : globalConfig.ClusterAgentToken with _ | clusterAgentToken
  · rcases hSec : globalConfig.ClusterAgentTokenSecret with _ | clusterAgentTokenSecret
    · rcases hSt : dda.Status.ClusterAgent with _ | clusterAgentStatus
      · rfl
      · by_cases hTokEmpty : clusterAgentStatus.GeneratedToken = "" <;> simp [hTokEmpty]
    · rfl
  · rfl

/-- `defaultFeature.Configure` keeps the OTel flag of the instance and returns
the required components that the flag selects. -/
theorem defaultFeature_Configure_by_otel_flag (h : ConfigureHelpers)
    (GenerateRandomString : Nat → String) (f : defaultFeature) (dda : DatadogAgent) :
    (Configure h GenerateRandomString f dda).2
      = if f.otelAgentEnabled then
          { ClusterAgent := { IsRequired := some true }
            Agent := { IsRequired := some true, Containers := [OtelAgent] } }
        else
          { ClusterAgent := { IsRequired := some true }
            Agent := { IsRequired := some true } } := by
  have key : ∀ g : defaultFeature, g.otelAgentEnabled = f.otelAgentEnabled →
      (if g.otelAgentEnabled then
          (g, ({ ClusterAgent := { IsRequired := some true }
                 Agent := { IsRequired := some true, Containers := [OtelAgent] } } :
                RequiredComponents))
        else
          (g, { ClusterAgent := { IsRequired := some true }
                Agent := { IsRequired := some true } })).2
        = if f.otelAgentEnabled then
            { ClusterAgent := { IsRequired := some true }
              Agent := { IsRequired := some true, Containers := [OtelAgent] } }
          else
            { ClusterAgent := { IsRequired := some true }
              Agent := { IsRequired := some true } } := by
    intro g hg
    rw [hg]
    split_ifs <;> rfl
  unfold Configure
  refine key _ ?_
  rcases hGlobal : dda.Spec.Global with _ | globalConfig
  · rfl
  · simp only [configureClusterAgentToken_otelAgentEnabled]
    rcases hCreds : globalConfig.Credentials with _ | creds
    · split_ifs <;> rfl
    · simp only [(configureCredentials_frame h _ dda creds).2]
      split_ifs <;> rfl

/-- C21: for every desired state, the global section being set or not,
`defaultFeature.Configure` of a fresh instance returns required components in
which the cluster agent is required with no container, the node agent is
required and the cluster checks runner is left unset; the containers of the
node agent are exactly otel-agent when the instance was built with the option
`OtelAgentEnabled` set, and none when it was built without it or with nil
options. -/
theorem defaultFeature_Configure_required_components (h : ConfigureHelpers)
    (GenerateRandomString : Nat → String) (o : Options) (dda : DatadogAgent) :
    (Configure h GenerateRandomString (buildDefaultFeature (some o)) dda).2
      = { ClusterAgent := { IsRequired := some true, Containers := [] }
          Agent := { IsRequired := some true
                     Containers := if o.OtelAgentEnabled then [OtelAgent] else [] }
          ClusterChecksRunner := { IsRequired := none, Containers := [] } } ∧
    (Configure h GenerateRandomString (buildDefaultFeature none) dda).2
      = { ClusterAgent := { IsRequired := some true, Containers := [] }
          Agent := { IsRequired := some true, Containers := [] }
          ClusterChecksRunner := { IsRequired := none, Containers := [] } } := by
  rw [defaultFeature_Configure_by_otel_flag, defaultFeature_Configure_by_otel_flag]
  refine ⟨?_, rfl⟩
  cases hOtel : o.OtelAgentEnabled <;> simp [buildDefaultFeature, hOtel]

end LastClaims

section LiveContainerBoth

open livecontainer

/-- C22: for every feature state, `liveContainerFeature.ManageNodeAgent` first
adds the env var `DDProcessConfigRunInCoreAgent` with value
`BoolToString runInCoreAgent` to the process-agent container and then to the
core-agent container, and scopes every later call (the two mounts and the
container-collection variable) to the target, core-agent if `runInCoreAgent`
and process-agent otherwise; so on fresh field managers the container that is
not the target ends with that one env var and no volume mount, and the target
with it and the container-collection variable. -/
theorem liveContainer_ManageNodeAgent_both_containers (p : MergePolicies)
    (f : liveContainerFeature) (provider : String) :
    (ManageNodeAgent recordingContributions f [] provider).managers
      = [Contribution.AddEnvVarToContainer ProcessAgentContainerName
           { Name := DDProcessConfigRunInCoreAgent, Value := BoolToString f.runInCoreAgent },
         Contribution.AddEnvVarToContainer CoreAgentContainerName
           { Name := DDProcessConfigRunInCoreAgent, Value := BoolToString f.runInCoreAgent },
         Contribution.AddVolumeMountToContainer cgroupsVolumeMount
           (if f.runInCoreAgent then CoreAgentContainerName else ProcessAgentContainerName),
         Contribution.AddVolume cgroupsVolume,
         Contribution.AddVolumeMountToContainer procdirVolumeMount
           (if f.runInCoreAgent then CoreAgentContainerName else ProcessAgentContainerName),
         Contribution.AddVolume procdirVolume,
         Contribution.AddEnvVarToContainer
           (if f.runInCoreAgent then CoreAgentContainerName else ProcessAgentContainerName)
           { Name := DDContainerCollectionEnabled, Value := "true" }] ∧
    (ManageNodeAgent (fieldManagers p) f FieldManagers.empty provider).managers.EnvVarsByC
        (if f.runInCoreAgent then ProcessAgentContainerName else CoreAgentContainerName)
      = [{ Name := DDProcessConfigRunInCoreAgent, Value := BoolToString f.runInCoreAgent }] ∧
    (ManageNodeAgent (fieldManagers p) f FieldManagers.empty provider).managers.VolumeMountsByC
        (if f.runInCoreAgent then ProcessAgentContainerName else CoreAgentContainerName)
      = [] ∧
    (ManageNodeAgent (fieldManagers p) f FieldManagers.empty provider).managers.EnvVarsByC
        (if f.runInCoreAgent then CoreAgentContainerName else ProcessAgentContainerName)
      = [{ Name := DDProcessConfigRunInCoreAgent, Value := BoolToString f.runInCoreAgent },
         { Name := DDContainerCollectionEnabled, Value := "true" }] := by
  obtain ⟨runInCoreAgent⟩ := f
  cases runInCoreAgent <;> exact ⟨rfl, rfl, rfl, rfl⟩

end LiveContainerBoth

section FakeManagers

open fake

/-- C23: for every state of the fake security-context manager whose map is
made, every container and every capability list,
`AddCapabilitiesToContainer` leaves for that container the list it had
followed by the new capabilities, in order and with duplicates, leaves the
lists of the other containers as they were and keeps the map made; the manager
`NewFakeSecurityContextManager` creates has its map made and holds no
capability for any container; and adding `a` then `b` to a container is adding
`a ++ b` to it. -/
theorem fake_AddCapabilitiesToContainer_accumulates (m : SecurityContextManager)
    (byC : AgentContainerName → List Capability) (c : AgentContainerName)
    (caps a b : List Capability) (hMade : m.CapabilitiesByC = some byC) :
    (∃ added, AddCapabilitiesToContainer m caps c = some added ∧
      added.capabilities c = m.capabilities c ++ caps ∧
      (∀ other, other ≠ c → added.capabilities other = m.capabilities other) ∧
      added.CapabilitiesByC ≠ none) ∧
    NewFakeSecurityContextManager.CapabilitiesByC ≠ none ∧
    (∀ container, NewFakeSecurityContextManager.capabilities container = []) ∧
    (AddCapabilitiesToContainer m a c).bind (fun added => AddCapabilitiesToContainer added b c)
      = AddCapabilitiesToContainer m (a ++ b) c := by
  obtain ⟨map⟩ := m
  simp only at hMade
  subst hMade
  refine ⟨⟨_, rfl, ?_, fun other hOther => ?_, ?_⟩, ?_, fun container => rfl, ?_⟩
  · simp [SecurityContextManager.capabilities, setAt]
  · simp [SecurityContextManager.capabilities, setAt, hOther]
  · simp
  · simp [NewFakeSecurityContextManager]
  · simp only [AddCapabilitiesToContainer, Option.bind]
    congr 3
    funext container
    by_cases hc : container = c <;> simp [setAt, hc]

/-- Witness of C23: the manager in which the system probe container has two
capabilities; one of them is added again and is kept twice. -/
theorem fake_AddCapabilitiesToContainer_accumulates_witness :
    systemProbeCapabilities.CapabilitiesByC
      = some (setAt (fun _ => []) SystemProbeContainerName ["SYS_ADMIN", "NET_ADMIN"]) ∧
    (∃ added, AddCapabilitiesToContainer systemProbeCapabilities ["NET_ADMIN", "SYS_PTRACE"]
        SystemProbeContainerName = some added ∧
      added.capabilities SystemProbeContainerName
        = systemProbeCapabilities.capabilities SystemProbeContainerName
          ++ ["NET_ADMIN", "SYS_PTRACE"] ∧
      (∀ other, other ≠ SystemProbeContainerName →
        added.capabilities other = systemProbeCapabilities.capabilities other) ∧
      added.CapabilitiesByC ≠ none) ∧
    systemProbeCapabilities.capabilities SystemProbeContainerName ++ ["NET_ADMIN", "SYS_PTRACE"]
      = ["SYS_ADMIN", "NET_ADMIN", "NET_ADMIN", "SYS_PTRACE"] :=
  ⟨rfl,
   (fake_AddCapabilitiesToContainer_accumulates systemProbeCapabilities
      (setAt (fun _ => []) SystemProbeContainerName ["SYS_ADMIN", "NET_ADMIN"])
      SystemProbeContainerName ["NET_ADMIN", "SYS_PTRACE"] ["NET_ADMIN"] ["SYS_PTRACE"] rfl).1,
   rfl⟩

end FakeManagers

end DatadogOperator
